import Mathlib

set_option maxHeartbeats 1000000

/-! Verification model of the bubbleAIv2.5 semantic router and autonomous
    agent (src/services/semanticRouter.ts). Strings are modelled as lists of
    characters; the external services (the generative model streams, deep
    research, image generation, the memory store and the database) are
    modelled as oracles supplied in an environment record, and thrown
    exceptions as Except errors threaded through every external call. -/

abbrev Str : Type := List Char

/-- Line terminators in the JavaScript sense: the regex dot in a pattern
    without the s flag matches any character except these. -/
def isLineTerm (c : Char) : Bool :=
  c = '\n' || c = '\r' || c = '\u2028' || c = '\u2029'

/-- White space in the JavaScript sense: the set matched by the regex class
    for white space and stripped by String.trim. -/
def isJsWhitespace (c : Char) : Bool :=
  c = ' ' || c = '\t' || c = '\n' || c = '\r' || c = '\u000B' || c = '\u000C' ||
  c = '\u00A0' || c = '\u1680' || ('\u2000' ≤ c && c ≤ '\u200A') ||
  c = '\u2028' || c = '\u2029' || c = '\u202F' || c = '\u205F' ||
  c = '\u3000' || c = '\uFEFF'

/-- Character comparison, optionally case insensitive (the JavaScript regex
    i flag, applied here only to ASCII tag patterns). -/
def chEq (ci : Bool) (a b : Char) : Bool :=
  if ci then a.toLower = b.toLower else a = b

/-- Tests whether pat is a (possibly case insensitive) prefix of l. -/
def prefixEq (ci : Bool) : Str → Str → Bool
  | [], _ => true
  | _ :: _, [] => false
  | a :: as, b :: bs => chEq ci a b && prefixEq ci as bs

/-- Tests whether the literal pattern pat occurs somewhere inside l. -/
def hasSub (ci : Bool) (pat : Str) : Str → Bool
  | [] => prefixEq ci pat []
  | l@(_ :: rest) => prefixEq ci pat l || hasSub ci pat rest

/-- Lazy capture for a dot-star lazy group followed by the literal close:
    starting at the current position, the shortest run of non line-terminator
    characters after which close matches. Returns the captured run and the
    consumed text (the capture followed by the actual text matched by the
    close pattern). -/
def lazyCapture (ci : Bool) (close : Str) : Str → Option (Str × Str)
  | [] => if prefixEq ci close [] then some ([], []) else none
  | l@(c :: rest) =>
    if prefixEq ci close l then some ([], l.take close.length)
    else if isLineTerm c then none
    else
      match lazyCapture ci close rest with
      | some (cap, cons) => some (c :: cap, c :: cons)
      | none => none

/-- Attempts to match the pattern opn(.*?)close at the current position.
    Returns the whole matched text and the capture. -/
def matchTagAt (ci : Bool) (opn close : Str) (l : Str) : Option (Str × Str) :=
  if prefixEq ci opn l then
    match lazyCapture ci close (l.drop opn.length) with
    | some (cap, cons) => some (l.take opn.length ++ cons, cap)
    | none => none
  else none

/-- JavaScript String.match with the pattern opn(.*?)close: the first
    position, scanning left to right, at which the pattern matches, with the
    lazy capture there. Returns (whole match, capture). -/
def matchTag (ci : Bool) (opn close : Str) : Str → Option (Str × Str)
  | [] => matchTagAt ci opn close []
  | l@(_ :: rest) =>
    match matchTagAt ci opn close l with
    | some r => some r
    | none => matchTag ci opn close rest

def searchOpen : Str := "<SEARCH>".data
def searchClose : Str := "</SEARCH>".data
def deepOpen : Str := "<DEEP>".data
def deepClose : Str := "</DEEP>".data
def thinkOpen : Str := "<THINK>".data
def thinkClose : Str := "</THINK>".data
def imageOpen : Str := "<IMAGE>".data
def imageClose : Str := "</IMAGE>".data
def projectOpen : Str := "<PROJECT>".data
def projectClose : Str := "</PROJECT>".data
def canvasOpen : Str := "<CANVAS>".data
def canvasClose : Str := "</CANVAS>".data
def studyOpen : Str := "<STUDY>".data
def studyClose : Str := "</STUDY>".data

/-- The opening part of the case-insensitive deep-search fallback pattern:
    an opening SEARCH tag directly followed by the word deep. -/
def searchDeepOpen : Str := "<SEARCH>deep".data

/-- Length of the maximal white-space run at the front of the list (the
    greedy one-or-more white-space quantifier). -/
def countWs : Str → Nat
  | [] => 0
  | c :: rest => if isJsWhitespace c then countWs rest + 1 else 0

/-- Attempts, at the current position, to match the case-insensitive pattern
    of an opening SEARCH tag whose content starts with the word deep followed
    by at least one white-space character, then a lazy capture up to the
    closing SEARCH tag. The greedy white-space quantifier is modelled by the
    maximal white-space run: the closing tag starts with a non white-space
    character, so backtracking into the run can never produce a match that
    the maximal run does not. -/
def matchDeepAt (l : Str) : Option (Str × Str) :=
  if prefixEq true searchDeepOpen l then
    let rest := l.drop searchDeepOpen.length
    let w := countWs rest
    if w = 0 then none
    else
      match lazyCapture true searchClose (rest.drop w) with
      | some (cap, cons) =>
        some (l.take searchDeepOpen.length ++ rest.take w ++ cons, cap)
      | none => none
  else none

/-- JavaScript String.match for the case-insensitive deep-search fallback
    pattern, scanning positions left to right. -/
def matchDeepSearch : Str → Option (Str × Str)
  | [] => matchDeepAt []
  | l@(_ :: rest) =>
    match matchDeepAt l with
    | some r => some r
    | none => matchDeepSearch rest

/-- JavaScript String.replace with a string pattern and the empty
    replacement: removes the first occurrence of pat, if any. -/
def removeFirst (pat : Str) : Str → Str
  | [] => []
  | l@(c :: rest) =>
    if prefixEq false pat l then l.drop pat.length
    else c :: removeFirst pat rest

/-- JavaScript String.trim. -/
def jsTrim (l : Str) : Str :=
  ((l.dropWhile isJsWhitespace).reverse.dropWhile isJsWhitespace).reverse

/-- The deep match of the tag detection logic: the DEEP tag pair, or else
    the case-insensitive deep-search fallback. -/
def deepMatchRes (gen : Str) : Option (Str × Str) :=
  match matchTag false deepOpen deepClose gen with
  | some r => some r
  | none => matchDeepSearch gen

/-- The think match of the tag detection logic: the THINK tag pair (whole
    match and a present capture), or else a bare opening THINK tag (whole
    match with no capture group). -/
def thinkMatchRes (gen : Str) : Option (Str × Option Str) :=
  match matchTag false thinkOpen thinkClose gen with
  | some (m0, cap) => some (m0, some cap)
  | none =>
    if hasSub false thinkOpen gen then some (thinkOpen, none) else none

/-- The prompt the THINK branch switches to: the trimmed capture when the
    capture group is present and non-empty (truthy), otherwise the original
    user prompt. -/
def thinkPromptOf (origPrompt : Str) (capOpt : Option Str) : Str :=
  match capOpt with
  | some c => if c = [] then origPrompt else jsTrim c
  | none => origPrompt

inductive RouterAction : Type
  | SEARCH
  | DEEP_SEARCH
  | THINK
  | IMAGE
  | CANVAS
  | PROJECT
  | STUDY
  | SIMPLE
deriving DecidableEq, Repr

/-- Result of the tag detection logic in the SIMPLE branch: the new action,
    the new current prompt, the accumulated response text after stripping the
    matched tag, and the routing image parameters (set only by an IMAGE
    match). -/
structure Dispatch : Type where
  action : RouterAction
  prompt : Str
  newFinal : Str
  imageParams : Option Str
deriving DecidableEq, Repr

/-- The tag detection logic of the SIMPLE branch (the chain of if statements
    over the seven match results, in source order). origPrompt is the
    original user prompt, gen the text generated in this loop iteration,
    finalText the accumulated response text, params the current routing image
    parameters. Returns none when no tag matched. -/
def tagDispatch (origPrompt gen finalText : Str) (params : Option Str) :
    Option Dispatch :=
  match deepMatchRes gen with
  | some (m0, cap) => some ⟨.DEEP_SEARCH, cap, removeFirst m0 finalText, params⟩
  | none =>
  match matchTag false searchOpen searchClose gen with
  | some (m0, cap) => some ⟨.SEARCH, cap, removeFirst m0 finalText, params⟩
  | none =>
  match thinkMatchRes gen with
  | some (m0, capOpt) =>
    some ⟨.THINK, thinkPromptOf origPrompt capOpt, removeFirst m0 finalText, params⟩
  | none =>
  match matchTag false imageOpen imageClose gen with
  | some (m0, cap) => some ⟨.IMAGE, cap, removeFirst m0 finalText, some cap⟩
  | none =>
  match matchTag false projectOpen projectClose gen with
  | some (m0, cap) => some ⟨.PROJECT, cap, removeFirst m0 finalText, params⟩
  | none =>
  match matchTag false canvasOpen canvasClose gen with
  | some (m0, cap) => some ⟨.CANVAS, cap, removeFirst m0 finalText, params⟩
  | none =>
  match matchTag false studyOpen studyClose gen with
  | some (m0, cap) => some ⟨.STUDY, cap, removeFirst m0 finalText, params⟩
  | none => none

/-- A part of a generative-model message: a text part or an inline-data
    (base64 file) part. -/
inductive GemPart : Type
  | text (s : Str)
  | inlineData (data : Str) (mime : Str)
deriving DecidableEq, Repr

/-- A message sent to the generative model (role user or model plus parts). -/
structure GemMsg : Type where
  role : Str
  parts : List GemPart
deriving DecidableEq, Repr

/-- A chat history message as stored by the app (sender plus text). -/
structure HistMsg : Type where
  sender : Str
  text : Str
deriving DecidableEq, Repr

/-- A chunk of a generative-model stream: its text (the empty string models
    an absent or empty, hence falsy, text field) and, when a candidate with
    grounding metadata and grounding chunks is present, the list of grounding
    chunks, drawn from an abstract type G. -/
structure StreamChunk (G : Type) : Type where
  text : Str
  grounding : Option (List G)
deriving DecidableEq, Repr

/-- A memory record queued for creation in the returned message metadata. -/
structure MemoryEntry : Type where
  layer : Str
  key : Str
  value : Str
deriving DecidableEq, Repr

/-- The metadata payload accumulated during the run and spread into the
    returned message: captured grounding chunks and memory records to create
    (absent fields modelled as none). -/
structure Payload (G : Type) : Type where
  grounding : Option (List G)
  memoryToCreate : Option (List MemoryEntry)
deriving DecidableEq, Repr

/-- The message record returned by the agent. Optional fields model object
    fields that a given return site does or does not put on the record. -/
structure Message (G : Type) : Type where
  project_id : Str
  chat_id : Str
  sender : Str
  text : Str
  image_base64 : Option Str
  imageStatus : Option Str
  groundingMetadata : Option (List G)
  memoryToCreate : Option (List MemoryEntry)
deriving DecidableEq, Repr

/-- A file attached to the user prompt: its mime type and the outcome of the
    FileReader base64 encoding (an oracle, since the read may fail and its
    rejection is thrown at the await). -/
structure FileInput (E : Type) : Type where
  mimeType : Str
  base64 : Except E Str
deriving Repr

/-- The input of runAutonomousAgent, restricted to the observable fields the
    model needs: prompt, files, project and chat ids, the history, and the
    user id and api key forwarded to the router. -/
structure AgentInput (E : Type) : Type where
  prompt : Str
  files : List (FileInput E)
  project_id : Str
  chat_id : Str
  history : List HistMsg
  userId : Str
  apiKey : Str
deriving Repr

/-- The environment of one run: the outcome of every external call the agent
    can make, indexed by the request data the call sends, plus the two
    functions on exceptions the error paths use. E is the type of thrown
    exceptions, G the type of grounding chunks. -/
structure AgentEnv (E G : Type) : Type where
  /-- Outcome of memory.getContext, already in the stringified form that the
      prompts embed (JSON.stringify of the fetched context). -/
  getContextResult : Except E Str
  /-- The formatted current date and time string. -/
  timestamp : Str
  /-- Modelled from the spec: the autonomousInstruction system prompt text,
      imported from the instructions module that is not part of the sources. -/
  instruction : Str
  /-- Outcome of the SIMPLE-mode streaming call, as a function of the
      contents sent. -/
  simpleStream : List GemMsg → Except E (List (StreamChunk G))
  /-- Outcome of the SEARCH-mode streaming call, as a function of the
      contents string sent. -/
  searchStream : Str → Except E (List (StreamChunk G))
  /-- Outcome of the THINK-mode streaming call, as a function of the
      contents sent. -/
  thinkStream : List GemMsg → Except E (List (StreamChunk G))
  /-- Outcome of the CANVAS-mode streaming call, as a function of the
      contents string sent. -/
  canvasStream : Str → Except E (List (StreamChunk G))
  /-- Outcome of the STUDY-mode streaming call, as a function of the
      contents string sent. -/
  studyStream : Str → Except E (List (StreamChunk G))
  /-- Outcome (response text) of the PROJECT-mode non-streaming call, as a
      function of the contents string sent. -/
  projectResp : Str → Except E Str
  /-- Outcome of researchService.deepResearch: answer and sources. -/
  deepResearch : Str → Except E (Str × List Str)
  /-- Outcome of generateImage: the base64 image, or the thrown error. -/
  imageGen : Str → Except E Str
  /-- Outcome of incrementThinkingCount. -/
  incrementThinking : Except E Unit
  /-- Modelled from the spec: getUserFriendlyError from the errorUtils module
      that is not part of the sources, rendering an exception as a
      user-friendly string. -/
  friendly : E → Str
  /-- The message property of an exception when it is an Error instance,
      none otherwise (used by the IMAGE branch catch). -/
  errMessage : E → Option Str

def userRole : Str := "user".data
def modelRole : Str := "model".data
def aiSender : Str := "ai".data

/-- The text of the first part of a mapped history message (always the text
    part by construction). -/
def part0Text (g : GemMsg) : Str :=
  match g.parts with
  | GemPart.text s :: _ => s
  | _ => []

/-- The history mapping and filtering of the SIMPLE branch: sender user maps
    to role user, every other sender to role model, and messages whose
    trimmed text is empty are dropped. -/
def geminiHistorySimple (history : List HistMsg) : List GemMsg :=
  (history.map (fun m =>
    GemMsg.mk (if m.sender = userRole then userRole else modelRole)
      [GemPart.text m.text])).filter
    (fun g => !(jsTrim (part0Text g)).isEmpty)

/-- The history mapping and filtering of the THINK branch (textually the same
    code, duplicated in the source). -/
def geminiHistoryThink (history : List HistMsg) : List GemMsg :=
  (history.map (fun m =>
    GemMsg.mk (if m.sender = userRole then userRole else modelRole)
      [GemPart.text m.text])).filter
    (fun g => !(jsTrim (part0Text g)).isEmpty)

/-- The date-and-time context block built before the loop. -/
def dateTimeCtx (ts : Str) : Str :=
  "[CURRENT DATE & TIME]\n".data ++ ts ++ "\n".data

/-- The user parts of the SIMPLE request: the text part holding the current
    prompt, with each attached file base64-read and unshifted in front of it
    (so the files end up in reverse order before the text). A failed read
    throws at the await. -/
def buildUserPartsGo (E : Type) (files : List (FileInput E))
    (acc : List GemPart) : Except E (List GemPart) :=
  match files with
  | [] => Except.ok acc
  | f :: fs =>
    match f.base64 with
    | Except.error e => Except.error e
    | Except.ok b => buildUserPartsGo E fs (GemPart.inlineData b f.mimeType :: acc)

def buildUserParts (E : Type) (files : List (FileInput E)) (prompt : Str) :
    Except E (List GemPart) :=
  buildUserPartsGo E files [GemPart.text prompt]

/-- The contents sent by the SIMPLE-mode call. -/
def simpleContents (history : List HistMsg) (userParts : List GemPart) :
    List GemMsg :=
  geminiHistorySimple history ++ [GemMsg.mk userRole userParts]

/-- The contents string sent by the SEARCH-mode call. -/
def searchContents (prompt : Str) : Str :=
  "User Query: ".data ++ prompt

/-- The context block appended as the last user message of the THINK call. -/
def thinkContextBlock (instr ts ctx prompt : Str) : Str :=
  "\n".data ++ instr ++ "\n\n".data ++ dateTimeCtx ts ++
  "\n\n[MEMORY]\n".data ++ ctx ++ "\n\n[TASK]\n".data ++ prompt ++ "\n".data

/-- The contents sent by the THINK-mode call. -/
def thinkContents (history : List HistMsg) (instr ts ctx prompt : Str) :
    List GemMsg :=
  geminiHistoryThink history ++
    [GemMsg.mk userRole [GemPart.text (thinkContextBlock instr ts ctx prompt)]]

/-- The contents string sent by the CANVAS-mode call. -/
def canvasContents (prompt : Str) : Str :=
  "Create a single-file solution for: ".data ++ prompt ++
  ". \n                    If it\x27s a web page, provide full HTML/CSS/JS in one file. \n                    If it\x27s a script, provide the full code. \n                    Do not use markdown backticks for the main code block in the final output if possible, or ensure it\x27s clean.".data

/-- The contents string sent by the PROJECT-mode call. -/
def projectContents (prompt : Str) : Str :=
  "Build a complete file structure for a project: ".data ++ prompt ++
  ". Return a JSON object with filenames and brief content descriptions.".data

/-- The contents string sent by the STUDY-mode call. -/
def studyContents (prompt : Str) : Str :=
  "Create a structured study plan for: ".data ++ prompt ++
  ". Include learning objectives and key concepts.".data

/-- Text accumulated from a stream: the concatenation of the texts of the
    chunks with a truthy (non-empty) text field. -/
def chunksText (G : Type) (chunks : List (StreamChunk G)) : Str :=
  chunks.foldl (fun acc c => if c.text.isEmpty then acc else acc ++ c.text) []

/-- Grounding accumulation of the SEARCH-mode stream loop: for every chunk
    carrying grounding chunks (regardless of its text), initialize the
    payload list if absent and push the chunks. -/
def foldGroundingAll (G : Type) (chunks : List (StreamChunk G))
    (p : Option (List G)) : Option (List G) :=
  chunks.foldl (fun acc c =>
    match c.grounding with
    | none => acc
    | some gs => some (acc.getD [] ++ gs)) p

/-- Grounding accumulation of the SIMPLE-mode stream loop: the same push,
    but performed only inside the truthy-text branch. -/
def foldGroundingSimple (G : Type) (chunks : List (StreamChunk G))
    (p : Option (List G)) : Option (List G) :=
  chunks.foldl (fun acc c =>
    if c.text.isEmpty then acc
    else
      match c.grounding with
      | none => acc
      | some gs => some (acc.getD [] ++ gs)) p

/-- The routing decision returned by BubbleSemanticRouter.route. The
    parameters object is modelled by its only ever-used field, the image
    prompt (none models the empty object). -/
structure RoutingDecision : Type where
  action : RouterAction
  parameters : Option Str
  confidence : Nat
  memoryLayers : List Str
  quotaOK : Bool
  reasoning : Str
deriving DecidableEq, Repr

/-- The eight memory layers the router always requests. -/
def allMemoryLayers : List Str :=
  ["inner_personal".data, "outer_personal".data, "interests".data,
   "preferences".data, "custom".data, "codebase".data, "aesthetic".data,
   "project".data]

def routeReasoning : Str :=
  "Defaulting to conversation. Tags will trigger specific actions.".data

/-- BubbleSemanticRouter.route: the constant pass-through decision. -/
def BubbleSemanticRouter.route (query userId apiKey : Str)
    (fileCount : Nat) : RoutingDecision :=
  RoutingDecision.mk RouterAction.SIMPLE none 1 allMemoryLayers true
    routeReasoning

/-- The mutable state of the re-routing while loop: current action, current
    prompt, accumulated response text, metadata payload, and the routing
    image parameters. -/
structure LoopState (G : Type) : Type where
  action : RouterAction
  prompt : Str
  finalText : Str
  payload : Payload G
  imageParams : Option Str
deriving DecidableEq, Repr

/-- A message built at the common return sites: ai sender, the given text,
    and the metadata payload spread in; no image fields. -/
def baseMsg (G : Type) (pid cid text : Str) (p : Payload G) : Message G :=
  Message.mk pid cid aiSender text none none p.grounding p.memoryToCreate

/-- The image prompt of the IMAGE branch: the prompt field of the routing
    parameters when present and truthy, otherwise the current prompt. -/
def imagePromptOf (params : Option Str) (prompt : Str) : Str :=
  match params with
  | some p => if p.isEmpty then prompt else p
  | none => prompt

/-- The note appended to the response text when image generation throws. -/
def imgFailText (m : Option Str) : Str :=
  "\n\n(Image generation failed: ".data ++
  (match m with
   | some s => s
   | none => "Unknown error".data) ++ ")".data

/-- The text appended to the response text by the PROJECT branch. -/
def projectMsgText (respText : Str) : Str :=
  "\nI\x27ve designed the project structure based on your request.\n\n".data ++
  respText ++
  "\n\n(Switch to Co-Creator mode to fully hydrate and edit these files.)".data

/-- The research text built by the DEEP_SEARCH branch from the deep research
    answer and sources. -/
def deepResearchText (answer : Str) (sources : List Str) : Str :=
  answer ++ "\n\n**Sources:**\n".data ++ List.intercalate "\n".data sources

/-- The memory record queued when the SIMPLE heuristic fires. -/
def lastTopicEntry (prompt : Str) : MemoryEntry :=
  MemoryEntry.mk "outer_personal".data "last_topic".data prompt

/-- One iteration of the switch statement: executes the current action and
    either returns the final message list, or (only in the SIMPLE branch, on
    a tag match) continues with a new loop state. -/
def runMode (E G : Type) (inp : AgentInput E) (env : AgentEnv E G)
    (ctx : Str) (st : LoopState G) :
    Except E (Sum (LoopState G) (List (Message G))) :=
  match st.action with
  | RouterAction.SEARCH =>
    match env.searchStream (searchContents st.prompt) with
    | Except.error e => Except.error e
    | Except.ok chunks =>
      Except.ok (Sum.inr [baseMsg G inp.project_id inp.chat_id
        (st.finalText ++ chunksText G chunks)
        (Payload.mk (foldGroundingAll G chunks st.payload.grounding)
          st.payload.memoryToCreate)])
  | RouterAction.DEEP_SEARCH =>
    match env.deepResearch st.prompt with
    | Except.error e => Except.error e
    | Except.ok ans =>
      Except.ok (Sum.inr [baseMsg G inp.project_id inp.chat_id
        (st.finalText ++ "\n\n".data ++ deepResearchText ans.1 ans.2)
        st.payload])
  | RouterAction.THINK =>
    match env.incrementThinking with
    | Except.error e => Except.error e
    | Except.ok _ =>
      match env.thinkStream
        (thinkContents inp.history env.instruction env.timestamp ctx
          st.prompt) with
      | Except.error e => Except.error e
      | Except.ok chunks =>
        Except.ok (Sum.inr [baseMsg G inp.project_id inp.chat_id
          (st.finalText ++ chunksText G chunks) st.payload])
  | RouterAction.IMAGE =>
    match env.imageGen (imagePromptOf st.imageParams st.prompt) with
    | Except.ok b =>
      Except.ok (Sum.inr [Message.mk inp.project_id inp.chat_id aiSender
        st.finalText (some b) (some "complete".data) st.payload.grounding
        st.payload.memoryToCreate])
    | Except.error e =>
      Except.ok (Sum.inr [baseMsg G inp.project_id inp.chat_id
        (st.finalText ++ imgFailText (env.errMessage e)) st.payload])
  | RouterAction.CANVAS =>
    match env.canvasStream (canvasContents st.prompt) with
    | Except.error e => Except.error e
    | Except.ok chunks =>
      Except.ok (Sum.inr [baseMsg G inp.project_id inp.chat_id
        (st.finalText ++ chunksText G chunks) st.payload])
  | RouterAction.PROJECT =>
    match env.projectResp (projectContents st.prompt) with
    | Except.error e => Except.error e
    | Except.ok t =>
      Except.ok (Sum.inr [baseMsg G inp.project_id inp.chat_id
        (st.finalText ++ projectMsgText t) st.payload])
  | RouterAction.STUDY =>
    match env.studyStream (studyContents st.prompt) with
    | Except.error e => Except.error e
    | Except.ok chunks =>
      Except.ok (Sum.inr [baseMsg G inp.project_id inp.chat_id
        (st.finalText ++ chunksText G chunks) st.payload])
  | RouterAction.SIMPLE =>
    match buildUserParts E inp.files st.prompt with
    | Except.error e => Except.error e
    | Except.ok parts =>
      match env.simpleStream (simpleContents inp.history parts) with
      | Except.error e => Except.error e
      | Except.ok chunks =>
        let gen := chunksText G chunks
        let final2 := st.finalText ++ gen
        let pay2 := Payload.mk
          (foldGroundingSimple G chunks st.payload.grounding)
          st.payload.memoryToCreate
        match tagDispatch inp.prompt gen final2 st.imageParams with
        | some d =>
          Except.ok (Sum.inl
            (LoopState.mk d.action d.prompt d.newFinal pay2 d.imageParams))
        | none =>
          let pay3 :=
            if 50 < gen.length then
              Payload.mk pay2.grounding (some [lastTopicEntry inp.prompt])
            else pay2
          Except.ok (Sum.inr
            [baseMsg G inp.project_id inp.chat_id final2 pay3])

/-- The bounded while loop, by remaining iteration budget (the loop counter
    and the MAX_LOOPS bound). Returns the trace of executed actions together
    with the outcome; the fuel-exhausted case is the return after the loop. -/
def loopGo (E G : Type) (inp : AgentInput E) (env : AgentEnv E G)
    (ctx : Str) :
    LoopState G → Nat → List RouterAction × Except E (List (Message G))
  | st, 0 =>
    ([], Except.ok [baseMsg G inp.project_id inp.chat_id st.finalText
      st.payload])
  | st, n + 1 =>
    match runMode E G inp env ctx st with
    | Except.error e => ([st.action], Except.error e)
    | Except.ok (Sum.inr msgs) => ([st.action], Except.ok msgs)
    | Except.ok (Sum.inl st2) =>
      let p := loopGo E G inp env ctx st2 n
      (st.action :: p.1, p.2)

def MAX_LOOPS : Nat := 2

/-- The body of runAutonomousAgent inside its try block: route, gather the
    memory context, then run the loop, threading any thrown exception. Also
    returns the trace of loop iterations. -/
def agentBody (E G : Type) (inp : AgentInput E) (env : AgentEnv E G) :
    List RouterAction × Except E (List (Message G)) :=
  let routing :=
    BubbleSemanticRouter.route inp.prompt inp.userId inp.apiKey
      inp.files.length
  match env.getContextResult with
  | Except.error e => ([], Except.error e)
  | Except.ok ctx =>
    loopGo E G inp env ctx
      (LoopState.mk routing.action inp.prompt [] (Payload.mk none none)
        routing.parameters)
      MAX_LOOPS

def errOccurred : Str := "An error occurred: ".data

/-- runAutonomousAgent: the body with its catch-all handler, which turns any
    thrown exception into a single ai message with the stringified
    user-friendly rendering of the exception and no metadata. -/
def runAutonomousAgent (E G : Type) (inp : AgentInput E)
    (env : AgentEnv E G) : List (Message G) :=
  match (agentBody E G inp env).2 with
  | Except.ok msgs => msgs
  | Except.error e =>
    [Message.mk inp.project_id inp.chat_id aiSender
      (errOccurred ++ env.friendly e) none none none none]

/-- Specification-side observer: the grounding chunks a SIMPLE-mode stream
    contributes (those of chunks with truthy text, in order). -/
def simpleCapturedSpec (G : Type) (chunks : List (StreamChunk G)) : List G :=
  chunks.foldr (fun c acc =>
    if c.text.isEmpty then acc else c.grounding.getD [] ++ acc) []

/-- Specification-side observer: the grounding chunks a SEARCH-mode stream
    contributes (those of every chunk, in order). -/
def allCapturedSpec (G : Type) (chunks : List (StreamChunk G)) : List G :=
  chunks.foldr (fun c acc => c.grounding.getD [] ++ acc) []

/-- Specification-side observer: every citation chunk captured from the
    streams during a run, reading the run schedule off the environment: the
    SIMPLE iteration always captures, and a re-route to SEARCH captures from
    the search stream as well. -/
def citationsCapturedSpec (E G : Type) (inp : AgentInput E)
    (env : AgentEnv E G) : List G :=
  match env.getContextResult with
  | Except.error _ => []
  | Except.ok _ =>
    match buildUserParts E inp.files inp.prompt with
    | Except.error _ => []
    | Except.ok parts =>
      match env.simpleStream (simpleContents inp.history parts) with
      | Except.error _ => []
      | Except.ok chunks =>
        let base := simpleCapturedSpec G chunks
        let gen := chunksText G chunks
        match tagDispatch inp.prompt gen gen none with
        | none => base
        | some d =>
          if d.action = RouterAction.SEARCH then
            match env.searchStream (searchContents d.prompt) with
            | Except.ok chunks2 => base ++ allCapturedSpec G chunks2
            | Except.error _ => base
          else base

/-- Specification-side observer: the accumulated final response text of a
    run, reading the run schedule off the environment: the text generated in
    the SIMPLE iteration (with a matched tag stripped), followed by what the
    re-routed mode appends to it. -/
def finalTextSpec (E G : Type) (inp : AgentInput E) (env : AgentEnv E G) :
    Str :=
  match env.getContextResult with
  | Except.error _ => []
  | Except.ok ctx =>
    match buildUserParts E inp.files inp.prompt with
    | Except.error _ => []
    | Except.ok parts =>
      match env.simpleStream (simpleContents inp.history parts) with
      | Except.error _ => []
      | Except.ok chunks =>
        let gen := chunksText G chunks
        match tagDispatch inp.prompt gen gen none with
        | none => gen
        | some d =>
          match d.action with
          | RouterAction.SEARCH =>
            match env.searchStream (searchContents d.prompt) with
            | Except.ok cs => d.newFinal ++ chunksText G cs
            | Except.error _ => []
          | RouterAction.DEEP_SEARCH =>
            match env.deepResearch d.prompt with
            | Except.ok ans =>
              d.newFinal ++ "\n\n".data ++ deepResearchText ans.1 ans.2
            | Except.error _ => []
          | RouterAction.THINK =>
            match env.thinkStream
                (thinkContents inp.history env.instruction env.timestamp
                  ctx d.prompt) with
            | Except.ok cs => d.newFinal ++ chunksText G cs
            | Except.error _ => []
          | RouterAction.IMAGE =>
            match env.imageGen (imagePromptOf d.imageParams d.prompt) with
            | Except.ok _ => d.newFinal
            | Except.error e =>
              d.newFinal ++ imgFailText (env.errMessage e)
          | RouterAction.CANVAS =>
            match env.canvasStream (canvasContents d.prompt) with
            | Except.ok cs => d.newFinal ++ chunksText G cs
            | Except.error _ => []
          | RouterAction.PROJECT =>
            match env.projectResp (projectContents d.prompt) with
            | Except.ok t => d.newFinal ++ projectMsgText t
            | Except.error _ => []
          | RouterAction.STUDY =>
            match env.studyStream (studyContents d.prompt) with
            | Except.ok cs => d.newFinal ++ chunksText G cs
            | Except.error _ => []
          | RouterAction.SIMPLE => []

/-! Helper lemmas. -/

theorem loopGo_trace_len (E G : Type) (inp : AgentInput E)
    (env : AgentEnv E G) (ctx : Str) :
    ∀ (n : Nat) (st : LoopState G),
      (loopGo E G inp env ctx st n).1.length ≤ n := by
  intro n
  induction n with
  | zero => intro st; simp [loopGo]
  | succ m ih =>
    intro st
    simp only [loopGo]
    cases runMode E G inp env ctx st with
    | error e => simp
    | ok r =>
      cases r with
      | inr msgs => simp
      | inl st2 =>
        simpa using ih st2

theorem loopGo_trace_head (E G : Type) (inp : AgentInput E)
    (env : AgentEnv E G) (ctx : Str) (st : LoopState G) (n : Nat) :
    (loopGo E G inp env ctx st (n + 1)).1.head? = some st.action := by
  simp only [loopGo]
  cases runMode E G inp env ctx st with
  | error e => rfl
  | ok r =>
    cases r with
    | inr msgs => rfl
    | inl st2 => rfl

theorem prefixEq_false_take :
    ∀ (p l : Str), prefixEq false p l = true → l.take p.length = p := by
  intro p
  induction p with
  | nil => intro l _; simp
  | cons a as ih =>
    intro l h
    cases l with
    | nil => simp [prefixEq] at h
    | cons b bs =>
      simp [prefixEq, chEq] at h
      obtain ⟨hab, h2⟩ := h
      subst hab
      simp [List.take, ih bs h2]

theorem prefixEq_nil (ci : Bool) (p : Str) :
    prefixEq ci p [] = true → p = [] := by
  cases p <;> simp [prefixEq]

theorem lazyCapture_false_cons :
    ∀ (l close cap cons : Str),
      lazyCapture false close l = some (cap, cons) → cons = cap ++ close := by
  intro l
  induction l with
  | nil =>
    intro close cap cons h
    simp only [lazyCapture] at h
    split at h
    · rename_i hp
      rw [Option.some.injEq, Prod.mk.injEq] at h
      obtain ⟨h1, h2⟩ := h
      have hc := prefixEq_nil false close hp
      simp [← h1, ← h2, hc]
    · exact absurd h (by simp)
  | cons c rest ih =>
    intro close cap cons h
    simp only [lazyCapture] at h
    split at h
    · rename_i hp
      rw [Option.some.injEq, Prod.mk.injEq] at h
      obtain ⟨h1, h2⟩ := h
      rw [← h1, ← h2]
      simp [prefixEq_false_take close (c :: rest) hp]
    · split at h
      · exact absurd h (by simp)
      · cases hr : lazyCapture false close rest with
        | none => rw [hr] at h; exact absurd h (by simp)
        | some p =>
          obtain ⟨cap1, cons1⟩ := p
          rw [hr] at h
          rw [Option.some.injEq, Prod.mk.injEq] at h
          obtain ⟨h1, h2⟩ := h
          rw [← h1, ← h2]
          simp [ih close cap1 cons1 hr]

theorem matchTagAt_false_m0 (opn close l m0 cap : Str) :
    matchTagAt false opn close l = some (m0, cap) →
    m0 = opn ++ cap ++ close := by
  intro h
  simp only [matchTagAt] at h
  split at h
  · rename_i hp
    cases hc : lazyCapture false close (l.drop opn.length) with
    | none => rw [hc] at h; exact absurd h (by simp)
    | some p =>
      obtain ⟨cap1, cons1⟩ := p
      rw [hc] at h
      rw [Option.some.injEq, Prod.mk.injEq] at h
      obtain ⟨h1, h2⟩ := h
      rw [← h1]
      rw [prefixEq_false_take opn l hp,
        lazyCapture_false_cons _ _ _ _ hc, h2, List.append_assoc]
  · exact absurd h (by simp)

theorem matchTag_false_m0 :
    ∀ (gen opn close m0 cap : Str),
      matchTag false opn close gen = some (m0, cap) →
      m0 = opn ++ cap ++ close := by
  intro gen
  induction gen with
  | nil =>
    intro opn close m0 cap h
    exact matchTagAt_false_m0 opn close [] m0 cap h
  | cons c rest ih =>
    intro opn close m0 cap h
    simp only [matchTag] at h
    cases hat : matchTagAt false opn close (c :: rest) with
    | some r =>
      rw [hat] at h
      rw [Option.some.injEq] at h
      exact matchTagAt_false_m0 opn close (c :: rest) m0 cap (by rw [hat, h])
    | none =>
      rw [hat] at h
      exact ih opn close m0 cap h

/-! Concrete sample data used by the witnesses. -/

def sInp : AgentInput Nat :=
  AgentInput.mk "hello".data [] "p1".data "c1".data [] "u1".data "k1".data

/-- Builds a concrete environment over Nat errors and Nat grounding chunks,
    with the varying oracle outcomes as parameters (each stream ignores its
    request). -/
def mkEnv (ctxR : Except Nat Str)
    (simpleR searchR thinkR canvasR studyR : Except Nat (List (StreamChunk Nat)))
    (projR : Except Nat Str) (deepR : Except Nat (Str × List Str))
    (imgR : Except Nat Str) (msgF : Nat → Option Str) : AgentEnv Nat Nat :=
  AgentEnv.mk ctxR "ts".data "instr".data (fun _ => simpleR)
    (fun _ => searchR) (fun _ => thinkR) (fun _ => canvasR)
    (fun _ => studyR) (fun _ => projR) (fun _ => deepR) (fun _ => imgR)
    (Except.ok ()) (fun _ => "err".data) msgF

def okNil : Except Nat (List (StreamChunk Nat)) := Except.ok []

/-! Claim C2. -/

/-- C2: the re-routing loop of runAutonomousAgent executes at most
    MAX_LOOPS = 2 iterations on every input: the trace of executed loop
    iterations never exceeds the bound, so at most one tag-triggered
    re-invocation with a new mode can occur per call. -/
theorem claim2_loop_bounded_by_max_loops (E G : Type) (inp : AgentInput E)
    (env : AgentEnv E G) :
    (agentBody E G inp env).1.length ≤ MAX_LOOPS := by
  simp only [agentBody]
  cases env.getContextResult with
  | error e => simp [MAX_LOOPS]
  | ok ctx => exact loopGo_trace_len E G inp env ctx MAX_LOOPS _

/-! Claim C3. -/

/-- C3: whenever any step inside the body of runAutonomousAgent throws, the
    exception does not propagate: the function returns exactly one message
    with the project id, the chat id, sender ai, and text equal to the string
    An error occurred: followed by the user-friendly rendering of the
    exception, with no other fields. -/
theorem claim3_catch_all_error_message (E G : Type) (inp : AgentInput E)
    (env : AgentEnv E G) (e : E) (tr : List RouterAction)
    (h : agentBody E G inp env = (tr, Except.error e)) :
    runAutonomousAgent E G inp env =
      [Message.mk inp.project_id inp.chat_id aiSender
        (errOccurred ++ env.friendly e) none none none none] := by
  have h2 : (agentBody E G inp env).2 = Except.error e := by rw [h]
  simp [runAutonomousAgent, h2]

def c3Env : AgentEnv Nat Nat :=
  mkEnv (Except.error 7) okNil okNil okNil okNil okNil
    (Except.ok []) (Except.ok ([], [])) (Except.ok []) (fun _ => none)

theorem claim3_catch_all_error_message_witness :
    runAutonomousAgent Nat Nat sInp c3Env =
      [Message.mk "p1".data "c1".data aiSender
        (errOccurred ++ "err".data) none none none none] :=
  claim3_catch_all_error_message Nat Nat sInp c3Env 7 [] (by rfl)

/-! Claim C6. -/

/-- C6: BubbleSemanticRouter.route returns, for every query, userId, apiKey
    and fileCount, the constant decision SIMPLE with empty parameters,
    confidence 1, quotaOK true and all eight memory layers; consequently the
    first iteration of the agent loop always runs SIMPLE, and a second
    iteration in another mode can only arise from a tag match on the
    streamed output. -/
theorem claim6_route_constant_simple_first :
    (∀ (query userId apiKey : Str) (fileCount : Nat),
      BubbleSemanticRouter.route query userId apiKey fileCount =
        RoutingDecision.mk RouterAction.SIMPLE none 1 allMemoryLayers true
          routeReasoning) ∧
    (∀ (E G : Type) (inp : AgentInput E) (env : AgentEnv E G) (ctx : Str),
      env.getContextResult = Except.ok ctx →
      (agentBody E G inp env).1.head? = some RouterAction.SIMPLE) ∧
    (∀ (E G : Type) (inp : AgentInput E) (env : AgentEnv E G)
      (a : RouterAction) (rest : List RouterAction),
      (agentBody E G inp env).1 = RouterAction.SIMPLE :: a :: rest →
      ∃ parts chunks d,
        buildUserParts E inp.files inp.prompt = Except.ok parts ∧
        env.simpleStream (simpleContents inp.history parts) =
          Except.ok chunks ∧
        tagDispatch inp.prompt (chunksText G chunks) (chunksText G chunks)
          none = some d ∧
        d.action = a) := by
  refine ⟨fun _ _ _ _ => rfl, ?_, ?_⟩
  · intro E G inp env ctx h
    simp only [agentBody, BubbleSemanticRouter.route, h, MAX_LOOPS]
    exact loopGo_trace_head E G inp env ctx _ 1
  · intro E G inp env a rest h
    simp only [agentBody, BubbleSemanticRouter.route] at h
    cases hctx : env.getContextResult with
    | error e => rw [hctx] at h; simp at h
    | ok ctx =>
      rw [hctx] at h
      rw [show MAX_LOOPS = 1 + 1 by rfl] at h
      simp only [loopGo] at h
      cases hrm : runMode E G inp env ctx
          (LoopState.mk RouterAction.SIMPLE inp.prompt []
            (Payload.mk none none) none) with
      | error e => rw [hrm] at h; simp at h
      | ok r =>
        cases r with
        | inr msgs => rw [hrm] at h; simp at h
        | inl st2 =>
          rw [hrm] at h
          simp only [List.cons.injEq] at h
          obtain ⟨-, h2⟩ := h
          simp only [runMode] at hrm
          split at hrm
          · exact absurd hrm (by simp)
          · rename_i parts hbp
            split at hrm
            · exact absurd hrm (by simp)
            · rename_i chunks hss
              split at hrm
              · rename_i d htd
                rw [Except.ok.injEq, Sum.inl.injEq] at hrm
                rw [List.nil_append] at htd
                refine ⟨parts, chunks, d, hbp, hss, htd, ?_⟩
                have hh := loopGo_trace_head E G inp env ctx st2 0
                simp only [loopGo] at hh
                rw [h2] at hh
                simp only [List.head?, Option.some.injEq] at hh
                rw [← hrm] at hh
                exact hh.symm
              · exact absurd hrm (by simp)

def c6Env : AgentEnv Nat Nat :=
  mkEnv (Except.ok "ctx".data)
    (Except.ok [StreamChunk.mk "Hi <SEARCH>cats</SEARCH>".data none])
    okNil okNil okNil okNil (Except.ok []) (Except.ok ([], []))
    (Except.ok []) (fun _ => none)

theorem claim6_route_constant_simple_first_witness :
    BubbleSemanticRouter.route "q".data "u".data "k".data 0 =
      RoutingDecision.mk RouterAction.SIMPLE none 1 allMemoryLayers true
        routeReasoning ∧
    (agentBody Nat Nat sInp c6Env).1.head? = some RouterAction.SIMPLE ∧
    (∃ parts chunks d,
      buildUserParts Nat sInp.files sInp.prompt = Except.ok parts ∧
      c6Env.simpleStream (simpleContents sInp.history parts) =
        Except.ok chunks ∧
      tagDispatch sInp.prompt (chunksText Nat chunks)
        (chunksText Nat chunks) none = some d ∧
      d.action = RouterAction.SEARCH) :=
  ⟨claim6_route_constant_simple_first.1 "q".data "u".data "k".data 0,
   claim6_route_constant_simple_first.2.1 Nat Nat sInp c6Env "ctx".data rfl,
   claim6_route_constant_simple_first.2.2 Nat Nat sInp c6Env
     RouterAction.SEARCH [] (by decide)⟩

theorem dropWhile_all (p : Char → Bool) :
    ∀ l : Str, (∀ x ∈ l.dropWhile p, p x = true) ↔ ∀ x ∈ l, p x = true := by
  intro l
  induction l with
  | nil => simp
  | cons c t ih =>
    rw [List.dropWhile_cons]
    by_cases h : p c = true
    · rw [if_pos h, ih]
      simp [h]
    · rw [if_neg h]

theorem jsTrim_eq_nil_iff (l : Str) :
    jsTrim l = [] ↔ ∀ c ∈ l, isJsWhitespace c = true := by
  rw [jsTrim, List.reverse_eq_nil_iff, List.dropWhile_eq_nil_iff]
  simp only [List.mem_reverse]
  exact dropWhile_all isJsWhitespace l

theorem jsTrim_isEmpty_eq_all (l : Str) :
    (jsTrim l).isEmpty = l.all isJsWhitespace := by
  rw [Bool.eq_iff_iff, List.isEmpty_iff, List.all_eq_true]
  exact jsTrim_eq_nil_iff l

/-- Specification-side characterization of the history mapping: keep exactly
    the messages whose text has some non white-space character, in order, and
    map sender user to role user and every other sender to role model. -/
def histSpec (history : List HistMsg) : List GemMsg :=
  (history.filter (fun m => !m.text.all isJsWhitespace)).map (fun m =>
    GemMsg.mk (if m.sender = userRole then userRole else modelRole)
      [GemPart.text m.text])

theorem filter_of_map_comm (f : HistMsg → GemMsg) (q : GemMsg → Bool)
    (p : HistMsg → Bool) (hpq : ∀ m, q (f m) = p m) :
    ∀ l : List HistMsg, (l.map f).filter q = (l.filter p).map f := by
  intro l
  induction l with
  | nil => rfl
  | cons m t ih =>
    rw [List.map_cons, List.filter_cons, List.filter_cons, hpq m]
    cases hb : p m
    · simpa using ih
    · simpa using ih

/-! Claim C9. -/

/-- C9: in both the SIMPLE and the THINK branch, the history sent to the
    model maps sender user to role user and every other sender to role
    model, preserves the original order, and excludes exactly the history
    messages whose text is empty or consists only of white space. -/
theorem claim9_history_mapping_and_filter (history : List HistMsg) :
    geminiHistorySimple history = histSpec history ∧
    geminiHistoryThink history = histSpec history := by
  have key : geminiHistorySimple history = histSpec history := by
    rw [geminiHistorySimple, histSpec]
    exact filter_of_map_comm _ _ _
      (fun m => by rw [show part0Text (GemMsg.mk
        (if m.sender = userRole then userRole else modelRole)
        [GemPart.text m.text]) = m.text from rfl, jsTrim_isEmpty_eq_all])
      history
  exact ⟨key, key⟩

/-! Claim C1. -/

/-- C1: in a SIMPLE iteration, when the generated text matches one of the
    six content tag pairs (and no other tag pattern interferes), the whole
    matched tag (opening tag, capture, closing tag) is stripped from the
    accumulated response text, the action becomes the corresponding mode,
    the current prompt becomes the capture, and the loop continues with the
    new state. -/
theorem claim1_simple_tag_strips_and_reroutes :
    (∀ (gen fin orig : Str) (par : Option Str) (m0 cap : Str),
      matchTag false deepOpen deepClose gen = some (m0, cap) →
      tagDispatch orig gen fin par =
        some (Dispatch.mk RouterAction.DEEP_SEARCH cap
          (removeFirst (deepOpen ++ cap ++ deepClose) fin) par)) ∧
    (∀ (gen fin orig : Str) (par : Option Str) (m0 cap : Str),
      deepMatchRes gen = none →
      matchTag false searchOpen searchClose gen = some (m0, cap) →
      tagDispatch orig gen fin par =
        some (Dispatch.mk RouterAction.SEARCH cap
          (removeFirst (searchOpen ++ cap ++ searchClose) fin) par)) ∧
    (∀ (gen fin orig : Str) (par : Option Str) (m0 cap : Str),
      deepMatchRes gen = none →
      matchTag false searchOpen searchClose gen = none →
      thinkMatchRes gen = none →
      matchTag false imageOpen imageClose gen = some (m0, cap) →
      tagDispatch orig gen fin par =
        some (Dispatch.mk RouterAction.IMAGE cap
          (removeFirst (imageOpen ++ cap ++ imageClose) fin) (some cap))) ∧
    (∀ (gen fin orig : Str) (par : Option Str) (m0 cap : Str),
      deepMatchRes gen = none →
      matchTag false searchOpen searchClose gen = none →
      thinkMatchRes gen = none →
      matchTag false imageOpen imageClose gen = none →
      matchTag false projectOpen projectClose gen = some (m0, cap) →
      tagDispatch orig gen fin par =
        some (Dispatch.mk RouterAction.PROJECT cap
          (removeFirst (projectOpen ++ cap ++ projectClose) fin) par)) ∧
    (∀ (gen fin orig : Str) (par : Option Str) (m0 cap : Str),
      deepMatchRes gen = none →
      matchTag false searchOpen searchClose gen = none →
      thinkMatchRes gen = none →
      matchTag false imageOpen imageClose gen = none →
      matchTag false projectOpen projectClose gen = none →
      matchTag false canvasOpen canvasClose gen = some (m0, cap) →
      tagDispatch orig gen fin par =
        some (Dispatch.mk RouterAction.CANVAS cap
          (removeFirst (canvasOpen ++ cap ++ canvasClose) fin) par)) ∧
    (∀ (gen fin orig : Str) (par : Option Str) (m0 cap : Str),
      deepMatchRes gen = none →
      matchTag false searchOpen searchClose gen = none →
      thinkMatchRes gen = none →
      matchTag false imageOpen imageClose gen = none →
      matchTag false projectOpen projectClose gen = none →
      matchTag false canvasOpen canvasClose gen = none →
      matchTag false studyOpen studyClose gen = some (m0, cap) →
      tagDispatch orig gen fin par =
        some (Dispatch.mk RouterAction.STUDY cap
          (removeFirst (studyOpen ++ cap ++ studyClose) fin) par)) ∧
    (∀ (E G : Type) (inp : AgentInput E) (env : AgentEnv E G) (ctx : Str)
      (pr fi : Str) (pay : Payload G) (ip : Option Str) (n : Nat)
      (d : Dispatch) (parts : List GemPart) (chunks : List (StreamChunk G)),
      buildUserParts E inp.files pr = Except.ok parts →
      env.simpleStream (simpleContents inp.history parts) =
        Except.ok chunks →
      tagDispatch inp.prompt (chunksText G chunks)
        (fi ++ chunksText G chunks) ip = some d →
      loopGo E G inp env ctx (LoopState.mk RouterAction.SIMPLE pr fi pay ip)
          (n + 1) =
        (RouterAction.SIMPLE ::
          (loopGo E G inp env ctx (LoopState.mk d.action d.prompt d.newFinal
            (Payload.mk (foldGroundingSimple G chunks pay.grounding)
              pay.memoryToCreate) d.imageParams) n).1,
         (loopGo E G inp env ctx (LoopState.mk d.action d.prompt d.newFinal
            (Payload.mk (foldGroundingSimple G chunks pay.grounding)
              pay.memoryToCreate) d.imageParams) n).2)) := by
  refine ⟨?_, ?_, ?_, ?_, ?_, ?_, ?_⟩
  · intro gen fin orig par m0 cap hdm
    simp only [tagDispatch, deepMatchRes, hdm]
    rw [matchTag_false_m0 gen deepOpen deepClose m0 cap hdm]
  · intro gen fin orig par m0 cap hd hs
    simp only [tagDispatch, hd, hs]
    rw [matchTag_false_m0 gen searchOpen searchClose m0 cap hs]
  · intro gen fin orig par m0 cap hd hs ht hi
    simp only [tagDispatch, hd, hs, ht, hi]
    rw [matchTag_false_m0 gen imageOpen imageClose m0 cap hi]
  · intro gen fin orig par m0 cap hd hs ht hi hp
    simp only [tagDispatch, hd, hs, ht, hi, hp]
    rw [matchTag_false_m0 gen projectOpen projectClose m0 cap hp]
  · intro gen fin orig par m0 cap hd hs ht hi hp hc
    simp only [tagDispatch, hd, hs, ht, hi, hp, hc]
    rw [matchTag_false_m0 gen canvasOpen canvasClose m0 cap hc]
  · intro gen fin orig par m0 cap hd hs ht hi hp hc hst
    simp only [tagDispatch, hd, hs, ht, hi, hp, hc, hst]
    rw [matchTag_false_m0 gen studyOpen studyClose m0 cap hst]
  · intro E G inp env ctx pr fi pay ip n d parts chunks hbp hss htd
    simp only [loopGo, runMode, hbp, hss, htd]

def c1Chunks : List (StreamChunk Nat) :=
  [StreamChunk.mk "Hi <SEARCH>cats</SEARCH>".data none]

def c1Disp : Dispatch :=
  Dispatch.mk RouterAction.SEARCH "cats".data "Hi ".data none

def c1St2 : LoopState Nat :=
  LoopState.mk c1Disp.action c1Disp.prompt c1Disp.newFinal
    (Payload.mk (foldGroundingSimple Nat c1Chunks none) none)
    c1Disp.imageParams

theorem claim1_simple_tag_strips_and_reroutes_witness :
    tagDispatch "o".data "<DEEP>q</DEEP>".data "x <DEEP>q</DEEP>".data none =
      some (Dispatch.mk RouterAction.DEEP_SEARCH "q".data
        (removeFirst (deepOpen ++ "q".data ++ deepClose)
          "x <DEEP>q</DEEP>".data) none) ∧
    tagDispatch "o".data "<SEARCH>w</SEARCH>".data "<SEARCH>w</SEARCH>".data
        none =
      some (Dispatch.mk RouterAction.SEARCH "w".data
        (removeFirst (searchOpen ++ "w".data ++ searchClose)
          "<SEARCH>w</SEARCH>".data) none) ∧
    tagDispatch "o".data "<IMAGE>cat</IMAGE>".data "<IMAGE>cat</IMAGE>".data
        none =
      some (Dispatch.mk RouterAction.IMAGE "cat".data
        (removeFirst (imageOpen ++ "cat".data ++ imageClose)
          "<IMAGE>cat</IMAGE>".data) (some "cat".data)) ∧
    tagDispatch "o".data "<PROJECT>p</PROJECT>".data
        "<PROJECT>p</PROJECT>".data none =
      some (Dispatch.mk RouterAction.PROJECT "p".data
        (removeFirst (projectOpen ++ "p".data ++ projectClose)
          "<PROJECT>p</PROJECT>".data) none) ∧
    tagDispatch "o".data "<CANVAS>c</CANVAS>".data "<CANVAS>c</CANVAS>".data
        none =
      some (Dispatch.mk RouterAction.CANVAS "c".data
        (removeFirst (canvasOpen ++ "c".data ++ canvasClose)
          "<CANVAS>c</CANVAS>".data) none) ∧
    tagDispatch "o".data "<STUDY>s</STUDY>".data "<STUDY>s</STUDY>".data
        none =
      some (Dispatch.mk RouterAction.STUDY "s".data
        (removeFirst (studyOpen ++ "s".data ++ studyClose)
          "<STUDY>s</STUDY>".data) none) ∧
    loopGo Nat Nat sInp c6Env "ctx".data
        (LoopState.mk RouterAction.SIMPLE "hello".data []
          (Payload.mk none none) none) 1 =
      (RouterAction.SIMPLE ::
        (loopGo Nat Nat sInp c6Env "ctx".data c1St2 0).1,
       (loopGo Nat Nat sInp c6Env "ctx".data c1St2 0).2) :=
  ⟨claim1_simple_tag_strips_and_reroutes.1 "<DEEP>q</DEEP>".data
     "x <DEEP>q</DEEP>".data "o".data none "<DEEP>q</DEEP>".data "q".data
     (by decide),
   claim1_simple_tag_strips_and_reroutes.2.1 "<SEARCH>w</SEARCH>".data
     "<SEARCH>w</SEARCH>".data "o".data none "<SEARCH>w</SEARCH>".data
     "w".data (by decide) (by decide),
   claim1_simple_tag_strips_and_reroutes.2.2.1 "<IMAGE>cat</IMAGE>".data
     "<IMAGE>cat</IMAGE>".data "o".data none "<IMAGE>cat</IMAGE>".data
     "cat".data (by decide) (by decide) (by decide) (by decide),
   claim1_simple_tag_strips_and_reroutes.2.2.2.1 "<PROJECT>p</PROJECT>".data
     "<PROJECT>p</PROJECT>".data "o".data none "<PROJECT>p</PROJECT>".data
     "p".data (by decide) (by decide) (by decide) (by decide) (by decide),
   claim1_simple_tag_strips_and_reroutes.2.2.2.2.1 "<CANVAS>c</CANVAS>".data
     "<CANVAS>c</CANVAS>".data "o".data none "<CANVAS>c</CANVAS>".data
     "c".data (by decide) (by decide) (by decide) (by decide) (by decide)
     (by decide),
   claim1_simple_tag_strips_and_reroutes.2.2.2.2.2.1 "<STUDY>s</STUDY>".data
     "<STUDY>s</STUDY>".data "o".data none "<STUDY>s</STUDY>".data "s".data
     (by decide) (by decide) (by decide) (by decide) (by decide) (by decide)
     (by decide),
   claim1_simple_tag_strips_and_reroutes.2.2.2.2.2.2 Nat Nat sInp c6Env
     "ctx".data "hello".data [] (Payload.mk none none) none 0 c1Disp
     [GemPart.text "hello".data] c1Chunks rfl rfl (by decide)⟩

/-! Claim C8. -/

/-- C8: tag priority is fixed: a deep match (DEEP pair, or the
    case-insensitive SEARCH-with-deep-prefix fallback) wins over everything,
    then SEARCH, then THINK, then IMAGE, then PROJECT, then CANVAS, then
    STUDY; and a SEARCH tag whose content starts with the word deep followed
    by white space routes to DEEP_SEARCH with the deep prefix and the white
    space stripped from the new prompt. -/
theorem claim8_tag_priority_and_deep_in_search :
    (∀ (gen fin orig : Str) (par : Option Str) (m0 cap : Str),
      deepMatchRes gen = some (m0, cap) →
      tagDispatch orig gen fin par =
        some (Dispatch.mk RouterAction.DEEP_SEARCH cap
          (removeFirst m0 fin) par)) ∧
    (∀ (gen fin orig : Str) (par : Option Str) (m0 cap : Str),
      deepMatchRes gen = none →
      matchTag false searchOpen searchClose gen = some (m0, cap) →
      tagDispatch orig gen fin par =
        some (Dispatch.mk RouterAction.SEARCH cap (removeFirst m0 fin) par)) ∧
    (∀ (gen fin orig : Str) (par : Option Str) (m0 : Str)
      (capOpt : Option Str),
      deepMatchRes gen = none →
      matchTag false searchOpen searchClose gen = none →
      thinkMatchRes gen = some (m0, capOpt) →
      tagDispatch orig gen fin par =
        some (Dispatch.mk RouterAction.THINK (thinkPromptOf orig capOpt)
          (removeFirst m0 fin) par)) ∧
    (∀ (gen fin orig : Str) (par : Option Str) (m0 cap : Str),
      deepMatchRes gen = none →
      matchTag false searchOpen searchClose gen = none →
      thinkMatchRes gen = none →
      matchTag false imageOpen imageClose gen = some (m0, cap) →
      tagDispatch orig gen fin par =
        some (Dispatch.mk RouterAction.IMAGE cap (removeFirst m0 fin)
          (some cap))) ∧
    (∀ (gen fin orig : Str) (par : Option Str) (m0 cap : Str),
      deepMatchRes gen = none →
      matchTag false searchOpen searchClose gen = none →
      thinkMatchRes gen = none →
      matchTag false imageOpen imageClose gen = none →
      matchTag false projectOpen projectClose gen = some (m0, cap) →
      tagDispatch orig gen fin par =
        some (Dispatch.mk RouterAction.PROJECT cap (removeFirst m0 fin)
          par)) ∧
    (∀ (gen fin orig : Str) (par : Option Str) (m0 cap : Str),
      deepMatchRes gen = none →
      matchTag false searchOpen searchClose gen = none →
      thinkMatchRes gen = none →
      matchTag false imageOpen imageClose gen = none →
      matchTag false projectOpen projectClose gen = none →
      matchTag false canvasOpen canvasClose gen = some (m0, cap) →
      tagDispatch orig gen fin par =
        some (Dispatch.mk RouterAction.CANVAS cap (removeFirst m0 fin)
          par)) ∧
    (∀ (gen fin orig : Str) (par : Option Str) (m0 cap : Str),
      deepMatchRes gen = none →
      matchTag false searchOpen searchClose gen = none →
      thinkMatchRes gen = none →
      matchTag false imageOpen imageClose gen = none →
      matchTag false projectOpen projectClose gen = none →
      matchTag false canvasOpen canvasClose gen = none →
      matchTag false studyOpen studyClose gen = some (m0, cap) →
      tagDispatch orig gen fin par =
        some (Dispatch.mk RouterAction.STUDY cap (removeFirst m0 fin)
          par)) ∧
    (∀ (gen fin orig : Str) (par : Option Str) (m0 cap : Str),
      matchTag false deepOpen deepClose gen = none →
      matchDeepSearch gen = some (m0, cap) →
      tagDispatch orig gen fin par =
        some (Dispatch.mk RouterAction.DEEP_SEARCH cap
          (removeFirst m0 fin) par)) := by
  refine ⟨?_, ?_, ?_, ?_, ?_, ?_, ?_, ?_⟩
  · intro gen fin orig par m0 cap hdm
    simp only [tagDispatch, hdm]
  · intro gen fin orig par m0 cap hd hs
    simp only [tagDispatch, hd, hs]
  · intro gen fin orig par m0 capOpt hd hs ht
    simp only [tagDispatch, hd, hs, ht]
  · intro gen fin orig par m0 cap hd hs ht hi
    simp only [tagDispatch, hd, hs, ht, hi]
  · intro gen fin orig par m0 cap hd hs ht hi hp
    simp only [tagDispatch, hd, hs, ht, hi, hp]
  · intro gen fin orig par m0 cap hd hs ht hi hp hc
    simp only [tagDispatch, hd, hs, ht, hi, hp, hc]
  · intro gen fin orig par m0 cap hd hs ht hi hp hc hst
    simp only [tagDispatch, hd, hs, ht, hi, hp, hc, hst]
  · intro gen fin orig par m0 cap hdt hds
    have hdm : deepMatchRes gen = some (m0, cap) := by
      simp only [deepMatchRes, hdt, hds]
    simp only [tagDispatch, hdm]

theorem claim8_tag_priority_and_deep_in_search_witness :
    tagDispatch "o".data "<SEARCH>a</SEARCH><DEEP>b</DEEP>".data
        "f1".data none =
      some (Dispatch.mk RouterAction.DEEP_SEARCH "b".data
        (removeFirst "<DEEP>b</DEEP>".data "f1".data) none) ∧
    tagDispatch "o".data "<THINK>t</THINK><SEARCH>s</SEARCH>".data
        "f2".data none =
      some (Dispatch.mk RouterAction.SEARCH "s".data
        (removeFirst "<SEARCH>s</SEARCH>".data "f2".data) none) ∧
    tagDispatch "o".data "<THINK>t</THINK><IMAGE>i</IMAGE>".data
        "f3".data none =
      some (Dispatch.mk RouterAction.THINK
        (thinkPromptOf "o".data (some "t".data))
        (removeFirst "<THINK>t</THINK>".data "f3".data) none) ∧
    tagDispatch "o".data "<IMAGE>i</IMAGE><PROJECT>p</PROJECT>".data
        "f4".data none =
      some (Dispatch.mk RouterAction.IMAGE "i".data
        (removeFirst "<IMAGE>i</IMAGE>".data "f4".data) (some "i".data)) ∧
    tagDispatch "o".data "<PROJECT>p</PROJECT><CANVAS>c</CANVAS>".data
        "f5".data none =
      some (Dispatch.mk RouterAction.PROJECT "p".data
        (removeFirst "<PROJECT>p</PROJECT>".data "f5".data) none) ∧
    tagDispatch "o".data "<CANVAS>c</CANVAS><STUDY>s</STUDY>".data
        "f6".data none =
      some (Dispatch.mk RouterAction.CANVAS "c".data
        (removeFirst "<CANVAS>c</CANVAS>".data "f6".data) none) ∧
    tagDispatch "o".data "<STUDY>s</STUDY>".data "f7".data none =
      some (Dispatch.mk RouterAction.STUDY "s".data
        (removeFirst "<STUDY>s</STUDY>".data "f7".data) none) ∧
    tagDispatch "o".data "no <search>deep  q</search> tag".data
        "f8".data none =
      some (Dispatch.mk RouterAction.DEEP_SEARCH "q".data
        (removeFirst "<search>deep  q</search>".data "f8".data) none) :=
  ⟨claim8_tag_priority_and_deep_in_search.1
     "<SEARCH>a</SEARCH><DEEP>b</DEEP>".data "f1".data "o".data none
     "<DEEP>b</DEEP>".data "b".data (by decide),
   claim8_tag_priority_and_deep_in_search.2.1
     "<THINK>t</THINK><SEARCH>s</SEARCH>".data "f2".data "o".data none
     "<SEARCH>s</SEARCH>".data "s".data (by decide) (by decide),
   claim8_tag_priority_and_deep_in_search.2.2.1
     "<THINK>t</THINK><IMAGE>i</IMAGE>".data "f3".data "o".data none
     "<THINK>t</THINK>".data (some "t".data) (by decide) (by decide)
     (by decide),
   claim8_tag_priority_and_deep_in_search.2.2.2.1
     "<IMAGE>i</IMAGE><PROJECT>p</PROJECT>".data "f4".data "o".data none
     "<IMAGE>i</IMAGE>".data "i".data (by decide) (by decide) (by decide)
     (by decide),
   claim8_tag_priority_and_deep_in_search.2.2.2.2.1
     "<PROJECT>p</PROJECT><CANVAS>c</CANVAS>".data "f5".data "o".data none
     "<PROJECT>p</PROJECT>".data "p".data (by decide) (by decide)
     (by decide) (by decide) (by decide),
   claim8_tag_priority_and_deep_in_search.2.2.2.2.2.1
     "<CANVAS>c</CANVAS><STUDY>s</STUDY>".data "f6".data "o".data none
     "<CANVAS>c</CANVAS>".data "c".data (by decide) (by decide) (by decide)
     (by decide) (by decide) (by decide),
   claim8_tag_priority_and_deep_in_search.2.2.2.2.2.2.1
     "<STUDY>s</STUDY>".data "f7".data "o".data none "<STUDY>s</STUDY>".data
     "s".data (by decide) (by decide) (by decide) (by decide) (by decide)
     (by decide) (by decide),
   claim8_tag_priority_and_deep_in_search.2.2.2.2.2.2.2
     "no <search>deep  q</search> tag".data "f8".data "o".data none
     "<search>deep  q</search>".data "q".data (by decide) (by decide)⟩

theorem hasSub_cons (ci : Bool) (pat : Str) (c : Char) (rest : Str)
    (h : hasSub ci pat rest = true) : hasSub ci pat (c :: rest) = true := by
  simp only [hasSub, Bool.or_eq_true]
  exact Or.inr h

theorem hasSub_of_prefixEq (ci : Bool) (pat l : Str)
    (h : prefixEq ci pat l = true) : hasSub ci pat l = true := by
  cases l with
  | nil => simpa [hasSub] using h
  | cons c rest =>
    simp only [hasSub, Bool.or_eq_true]
    exact Or.inl h

theorem hasSub_append_right (ci : Bool) (pat : Str) :
    ∀ pre l : Str, hasSub ci pat l = true → hasSub ci pat (pre ++ l) = true := by
  intro pre
  induction pre with
  | nil => intro l h; simpa using h
  | cons c t ih =>
    intro l h
    rw [List.cons_append]
    exact hasSub_cons ci pat c (t ++ l) (ih l h)

theorem hasSub_drop (ci : Bool) (pat l : Str) (k : Nat)
    (h : hasSub ci pat (l.drop k) = true) : hasSub ci pat l = true := by
  have := hasSub_append_right ci pat (l.take k) (l.drop k) h
  rwa [List.take_append_drop] at this

theorem lazyCapture_hasSub (ci : Bool) (close : Str) :
    ∀ (l : Str) (r : Str × Str),
      lazyCapture ci close l = some r → hasSub ci close l = true := by
  intro l
  induction l with
  | nil =>
    intro r h
    simp only [lazyCapture] at h
    split at h
    · rename_i hp
      exact hasSub_of_prefixEq ci close [] hp
    · exact absurd h (by simp)
  | cons c rest ih =>
    intro r h
    simp only [lazyCapture] at h
    split at h
    · rename_i hp
      exact hasSub_of_prefixEq ci close (c :: rest) hp
    · split at h
      · exact absurd h (by simp)
      · cases hr : lazyCapture ci close rest with
        | none => rw [hr] at h; exact absurd h (by simp)
        | some p => exact hasSub_cons ci close c rest (ih p hr)

theorem matchTagAt_hasSub (ci : Bool) (opn close l : Str) (r : Str × Str)
    (h : matchTagAt ci opn close l = some r) :
    hasSub ci opn l = true ∧ hasSub ci close l = true := by
  simp only [matchTagAt] at h
  split at h
  · rename_i hp
    refine ⟨hasSub_of_prefixEq ci opn l hp, ?_⟩
    cases hc : lazyCapture ci close (l.drop opn.length) with
    | none => rw [hc] at h; exact absurd h (by simp)
    | some p =>
      exact hasSub_drop ci close l opn.length
        (lazyCapture_hasSub ci close _ p hc)
  · exact absurd h (by simp)

theorem matchTag_hasSub (ci : Bool) (opn close : Str) :
    ∀ (gen : Str) (r : Str × Str),
      matchTag ci opn close gen = some r →
      hasSub ci opn gen = true ∧ hasSub ci close gen = true := by
  intro gen
  induction gen with
  | nil =>
    intro r h
    exact matchTagAt_hasSub ci opn close [] r h
  | cons c rest ih =>
    intro r h
    simp only [matchTag] at h
    cases hat : matchTagAt ci opn close (c :: rest) with
    | some r2 => exact matchTagAt_hasSub ci opn close (c :: rest) r2 hat
    | none =>
      rw [hat] at h
      obtain ⟨h1, h2⟩ := ih r h
      exact ⟨hasSub_cons ci opn c rest h1, hasSub_cons ci close c rest h2⟩

theorem prefixEq_append_left (ci : Bool) :
    ∀ (a b l : Str), prefixEq ci (a ++ b) l = true → prefixEq ci a l = true := by
  intro a
  induction a with
  | nil => intro b l _; rfl
  | cons c t ih =>
    intro b l h
    cases l with
    | nil => simp [prefixEq] at h
    | cons x xs =>
      simp only [List.cons_append, prefixEq, Bool.and_eq_true] at h ⊢
      exact ⟨h.1, ih b xs h.2⟩

theorem matchDeepAt_hasSub (l : Str) (r : Str × Str)
    (h : matchDeepAt l = some r) :
    hasSub true searchOpen l = true ∧ hasSub true searchClose l = true := by
  simp only [matchDeepAt] at h
  split at h
  · rename_i hp
    have hop : prefixEq true searchOpen l = true := by
      have hsplit : searchDeepOpen = searchOpen ++ "deep".data := by decide
      rw [hsplit] at hp
      exact prefixEq_append_left true searchOpen "deep".data l hp
    refine ⟨hasSub_of_prefixEq true searchOpen l hop, ?_⟩
    split at h
    · exact absurd h (by simp)
    · cases hc : lazyCapture true searchClose
          ((l.drop searchDeepOpen.length).drop
            (countWs (l.drop searchDeepOpen.length))) with
      | none => rw [hc] at h; exact absurd h (by simp)
      | some p =>
        have hs := lazyCapture_hasSub true searchClose _ p hc
        have hs2 := hasSub_drop true searchClose (l.drop searchDeepOpen.length)
          (countWs (l.drop searchDeepOpen.length)) hs
        exact hasSub_drop true searchClose l searchDeepOpen.length hs2
  · exact absurd h (by simp)

theorem matchDeepSearch_hasSub :
    ∀ (gen : Str) (r : Str × Str),
      matchDeepSearch gen = some r →
      hasSub true searchOpen gen = true ∧
      hasSub true searchClose gen = true := by
  intro gen
  induction gen with
  | nil => intro r h; exact matchDeepAt_hasSub [] r h
  | cons c rest ih =>
    intro r h
    simp only [matchDeepSearch] at h
    cases hat : matchDeepAt (c :: rest) with
    | some r2 => exact matchDeepAt_hasSub (c :: rest) r2 hat
    | none =>
      rw [hat] at h
      obtain ⟨h1, h2⟩ := ih r h
      exact ⟨hasSub_cons true searchOpen c rest h1,
        hasSub_cons true searchClose c rest h2⟩

theorem deepMatchRes_hasSub (gen : Str) (r : Str × Str)
    (h : deepMatchRes gen = some r) :
    (hasSub false deepOpen gen = true ∧ hasSub false deepClose gen = true) ∨
    (hasSub true searchOpen gen = true ∧
      hasSub true searchClose gen = true) := by
  simp only [deepMatchRes] at h
  cases hd : matchTag false deepOpen deepClose gen with
  | some r2 => exact Or.inl (matchTag_hasSub false deepOpen deepClose gen r2 hd)
  | none =>
    rw [hd] at h
    exact Or.inr (matchDeepSearch_hasSub gen r h)

theorem thinkMatchRes_hasSub (gen : Str) (r : Str × Option Str)
    (h : thinkMatchRes gen = some r) : hasSub false thinkOpen gen = true := by
  simp only [thinkMatchRes] at h
  cases ht : matchTag false thinkOpen thinkClose gen with
  | some r2 => exact (matchTag_hasSub false thinkOpen thinkClose gen r2 ht).1
  | none =>
    rw [ht] at h
    split at h
    · rename_i heq; exact absurd heq (by simp)
    · split at h
      · assumption
      · exact absurd h (by simp)

/-! Claim C4. -/

/-- C4 counterexample: the generated text consisting of a bare opening THINK
    tag triggers a mode switch to THINK although the matching closing tag is
    not present in the text, refuting the claim that every re-route requires
    both the opening tag and its matching closing tag. -/
theorem claim4_counterexample_bare_think :
    tagDispatch "orig".data "<THINK>".data "<THINK>".data none =
      some (Dispatch.mk RouterAction.THINK "orig".data [] none) ∧
    hasSub false thinkClose "<THINK>".data = false := by decide

/-- C4 amended: a mode switch happens only on a tag-pattern match, and for
    every mode except THINK it requires both the opening tag and the
    matching closing tag in the generated text (for DEEP_SEARCH either the
    DEEP pair or, case-insensitively, the SEARCH pair around a deep prefix);
    THINK requires only the opening THINK tag. -/
theorem claim4_amended_reroute_needs_tags (orig gen fin : Str)
    (par : Option Str) (d : Dispatch)
    (h : tagDispatch orig gen fin par = some d) :
    d.action ≠ RouterAction.SIMPLE ∧
    (d.action = RouterAction.DEEP_SEARCH →
      (hasSub false deepOpen gen = true ∧ hasSub false deepClose gen = true) ∨
      (hasSub true searchOpen gen = true ∧
        hasSub true searchClose gen = true)) ∧
    (d.action = RouterAction.SEARCH →
      hasSub false searchOpen gen = true ∧
      hasSub false searchClose gen = true) ∧
    (d.action = RouterAction.THINK → hasSub false thinkOpen gen = true) ∧
    (d.action = RouterAction.IMAGE →
      hasSub false imageOpen gen = true ∧
      hasSub false imageClose gen = true) ∧
    (d.action = RouterAction.PROJECT →
      hasSub false projectOpen gen = true ∧
      hasSub false projectClose gen = true) ∧
    (d.action = RouterAction.CANVAS →
      hasSub false canvasOpen gen = true ∧
      hasSub false canvasClose gen = true) ∧
    (d.action = RouterAction.STUDY →
      hasSub false studyOpen gen = true ∧
      hasSub false studyClose gen = true) := by
  simp only [tagDispatch] at h
  split at h
  · rename_i m0 cap hdm
    rw [Option.some.injEq] at h
    subst h
    refine ⟨by simp, fun _ => deepMatchRes_hasSub gen (m0, cap) hdm,
      ?_, ?_, ?_, ?_, ?_, ?_⟩ <;> intro hx <;> exact absurd hx (by simp)
  · split at h
    · rename_i m0 cap hs
      rw [Option.some.injEq] at h
      subst h
      refine ⟨by simp, ?_,
        fun _ => matchTag_hasSub false searchOpen searchClose gen (m0, cap) hs,
        ?_, ?_, ?_, ?_, ?_⟩ <;> intro hx <;> exact absurd hx (by simp)
    · split at h
      · rename_i m0 capOpt ht
        rw [Option.some.injEq] at h
        subst h
        refine ⟨by simp, ?_, ?_,
          fun _ => thinkMatchRes_hasSub gen (m0, capOpt) ht,
          ?_, ?_, ?_, ?_⟩ <;> intro hx <;> exact absurd hx (by simp)
      · split at h
        · rename_i m0 cap hi
          rw [Option.some.injEq] at h
          subst h
          refine ⟨by simp, ?_, ?_, ?_,
            fun _ => matchTag_hasSub false imageOpen imageClose gen
              (m0, cap) hi,
            ?_, ?_, ?_⟩ <;> intro hx <;> exact absurd hx (by simp)
        · split at h
          · rename_i m0 cap hp
            rw [Option.some.injEq] at h
            subst h
            refine ⟨by simp, ?_, ?_, ?_, ?_,
              fun _ => matchTag_hasSub false projectOpen projectClose gen
                (m0, cap) hp,
              ?_, ?_⟩ <;> intro hx <;> exact absurd hx (by simp)
          · split at h
            · rename_i m0 cap hc
              rw [Option.some.injEq] at h
              subst h
              refine ⟨by simp, ?_, ?_, ?_, ?_, ?_,
                fun _ => matchTag_hasSub false canvasOpen canvasClose gen
                  (m0, cap) hc,
                ?_⟩ <;> intro hx <;> exact absurd hx (by simp)
            · split at h
              · rename_i m0 cap hst
                rw [Option.some.injEq] at h
                subst h
                refine ⟨by simp, ?_, ?_, ?_, ?_, ?_, ?_,
                  fun _ => matchTag_hasSub false studyOpen studyClose gen
                    (m0, cap) hst⟩ <;>
                  intro hx <;> exact absurd hx (by simp)
              · exact absurd h (by simp)

theorem claim4_amended_reroute_needs_tags_witness :
    (Dispatch.mk RouterAction.SEARCH "w".data [] none).action ≠
      RouterAction.SIMPLE ∧
    ((Dispatch.mk RouterAction.SEARCH "w".data [] none).action =
        RouterAction.SEARCH →
      hasSub false searchOpen "<SEARCH>w</SEARCH>".data = true ∧
      hasSub false searchClose "<SEARCH>w</SEARCH>".data = true) :=
  ⟨(claim4_amended_reroute_needs_tags "o".data "<SEARCH>w</SEARCH>".data []
      none (Dispatch.mk RouterAction.SEARCH "w".data [] none)
      (by decide)).1,
   (claim4_amended_reroute_needs_tags "o".data "<SEARCH>w</SEARCH>".data []
      none (Dispatch.mk RouterAction.SEARCH "w".data [] none)
      (by decide)).2.2.1⟩

theorem agentBody_ctx_err (E G : Type) (inp : AgentInput E)
    (env : AgentEnv E G) (e : E) (h : env.getContextResult = Except.error e) :
    agentBody E G inp env = ([], Except.error e) := by
  simp only [agentBody, h]

theorem agentBody_ctx_ok (E G : Type) (inp : AgentInput E)
    (env : AgentEnv E G) (ctx : Str)
    (h : env.getContextResult = Except.ok ctx) :
    agentBody E G inp env =
      loopGo E G inp env ctx
        (LoopState.mk RouterAction.SIMPLE inp.prompt []
          (Payload.mk none none) none) 2 := by
  simp only [agentBody, h]
  rfl

theorem loopGo_simple_bp_err (E G : Type) (inp : AgentInput E)
    (env : AgentEnv E G) (ctx : Str) (pr fi : Str) (pay : Payload G)
    (ip : Option Str) (n : Nat) (e : E)
    (hbp : buildUserParts E inp.files pr = Except.error e) :
    loopGo E G inp env ctx (LoopState.mk RouterAction.SIMPLE pr fi pay ip)
      (n + 1) = ([RouterAction.SIMPLE], Except.error e) := by
  simp only [loopGo, runMode, hbp]

theorem loopGo_simple_ss_err (E G : Type) (inp : AgentInput E)
    (env : AgentEnv E G) (ctx : Str) (pr fi : Str) (pay : Payload G)
    (ip : Option Str) (n : Nat) (e : E) (parts : List GemPart)
    (hbp : buildUserParts E inp.files pr = Except.ok parts)
    (hss : env.simpleStream (simpleContents inp.history parts) =
      Except.error e) :
    loopGo E G inp env ctx (LoopState.mk RouterAction.SIMPLE pr fi pay ip)
      (n + 1) = ([RouterAction.SIMPLE], Except.error e) := by
  simp only [loopGo, runMode, hbp, hss]

theorem loopGo_simple_step (E G : Type) (inp : AgentInput E)
    (env : AgentEnv E G) (ctx : Str) (pr fi : Str) (pay : Payload G)
    (ip : Option Str) (n : Nat) (parts : List GemPart)
    (chunks : List (StreamChunk G))
    (hbp : buildUserParts E inp.files pr = Except.ok parts)
    (hss : env.simpleStream (simpleContents inp.history parts) =
      Except.ok chunks) :
    loopGo E G inp env ctx (LoopState.mk RouterAction.SIMPLE pr fi pay ip)
        (n + 1) =
      match tagDispatch inp.prompt (chunksText G chunks)
          (fi ++ chunksText G chunks) ip with
      | some d =>
        (RouterAction.SIMPLE ::
          (loopGo E G inp env ctx (LoopState.mk d.action d.prompt d.newFinal
            (Payload.mk (foldGroundingSimple G chunks pay.grounding)
              pay.memoryToCreate) d.imageParams) n).1,
         (loopGo E G inp env ctx (LoopState.mk d.action d.prompt d.newFinal
            (Payload.mk (foldGroundingSimple G chunks pay.grounding)
              pay.memoryToCreate) d.imageParams) n).2)
      | none =>
        ([RouterAction.SIMPLE], Except.ok
          [baseMsg G inp.project_id inp.chat_id (fi ++ chunksText G chunks)
            (if 50 < (chunksText G chunks).length then
              Payload.mk (foldGroundingSimple G chunks pay.grounding)
                (some [lastTopicEntry inp.prompt])
            else
              Payload.mk (foldGroundingSimple G chunks pay.grounding)
                pay.memoryToCreate)]) := by
  cases htd : tagDispatch inp.prompt (chunksText G chunks)
      (fi ++ chunksText G chunks) ip with
  | some d => simp only [loopGo, runMode, hbp, hss, htd]
  | none =>
    simp only [loopGo, runMode, hbp, hss, htd]

theorem tagDispatch_action_ne_simple (orig gen fin : Str) (par : Option Str)
    (d : Dispatch) (h : tagDispatch orig gen fin par = some d) :
    d.action ≠ RouterAction.SIMPLE := by
  simp only [tagDispatch] at h
  split at h
  · rw [Option.some.injEq] at h; subst h; simp
  · split at h
    · rw [Option.some.injEq] at h; subst h; simp
    · split at h
      · rw [Option.some.injEq] at h; subst h; simp
      · split at h
        · rw [Option.some.injEq] at h; subst h; simp
        · split at h
          · rw [Option.some.injEq] at h; subst h; simp
          · split at h
            · rw [Option.some.injEq] at h; subst h; simp
            · split at h
              · rw [Option.some.injEq] at h; subst h; simp
              · exact absurd h (by simp)

theorem foldGroundingSimple_getD (G : Type) :
    ∀ (chunks : List (StreamChunk G)) (p : Option (List G)),
      (foldGroundingSimple G chunks p).getD [] =
        p.getD [] ++ simpleCapturedSpec G chunks := by
  intro chunks
  induction chunks with
  | nil => intro p; simp [foldGroundingSimple, simpleCapturedSpec]
  | cons c cs ih =>
    intro p
    cases he : c.text.isEmpty with
    | true =>
      simp only [List.isEmpty_iff] at he
      have h1 : foldGroundingSimple G (c :: cs) p =
          foldGroundingSimple G cs p := by
        simp [foldGroundingSimple, he]
      have h2 : simpleCapturedSpec G (c :: cs) = simpleCapturedSpec G cs := by
        simp [simpleCapturedSpec, he]
      rw [h1, h2, ih p]
    | false =>
      have hne : ¬ c.text = [] := by
        intro hh
        rw [hh] at he
        simp at he
      cases hg : c.grounding with
      | none =>
        have h1 : foldGroundingSimple G (c :: cs) p =
            foldGroundingSimple G cs p := by
          simp [foldGroundingSimple, hne, hg]
        have h2 : simpleCapturedSpec G (c :: cs) =
            simpleCapturedSpec G cs := by
          simp [simpleCapturedSpec, hne, hg]
        rw [h1, h2, ih p]
      | some gs =>
        have h1 : foldGroundingSimple G (c :: cs) p =
            foldGroundingSimple G cs (some (p.getD [] ++ gs)) := by
          simp [foldGroundingSimple, hne, hg]
        have h2 : simpleCapturedSpec G (c :: cs) =
            gs ++ simpleCapturedSpec G cs := by
          simp [simpleCapturedSpec, hne, hg]
        rw [h1, h2, ih (some (p.getD [] ++ gs))]
        simp [List.append_assoc]

theorem foldGroundingAll_getD (G : Type) :
    ∀ (chunks : List (StreamChunk G)) (p : Option (List G)),
      (foldGroundingAll G chunks p).getD [] =
        p.getD [] ++ allCapturedSpec G chunks := by
  intro chunks
  induction chunks with
  | nil => intro p; simp [foldGroundingAll, allCapturedSpec]
  | cons c cs ih =>
    intro p
    cases hg : c.grounding with
    | none =>
      have h1 : foldGroundingAll G (c :: cs) p = foldGroundingAll G cs p := by
        simp [foldGroundingAll, hg]
      have h2 : allCapturedSpec G (c :: cs) = allCapturedSpec G cs := by
        simp [allCapturedSpec, hg]
      rw [h1, h2, ih p]
    | some gs =>
      have h1 : foldGroundingAll G (c :: cs) p =
          foldGroundingAll G cs (some (p.getD [] ++ gs)) := by
        simp [foldGroundingAll, hg]
      have h2 : allCapturedSpec G (c :: cs) = gs ++ allCapturedSpec G cs := by
        simp [allCapturedSpec, hg]
      rw [h1, h2, ih (some (p.getD [] ++ gs))]
      simp [List.append_assoc]

theorem loopGo_one_ok (E G : Type) (inp : AgentInput E) (env : AgentEnv E G)
    (ctx : Str) (st : LoopState G)
    (hns : st.action ≠ RouterAction.SIMPLE) (tr : List RouterAction)
    (msgs : List (Message G))
    (h : loopGo E G inp env ctx st 1 = (tr, Except.ok msgs)) :
    ∃ m, msgs = [m] ∧ m.project_id = inp.project_id ∧
      m.chat_id = inp.chat_id ∧ m.sender = aiSender ∧
      m.memoryToCreate = st.payload.memoryToCreate ∧
      ((st.action = RouterAction.SEARCH ∧
        ∃ cs, env.searchStream (searchContents st.prompt) = Except.ok cs ∧
          m.text = st.finalText ++ chunksText G cs ∧
          m.groundingMetadata = foldGroundingAll G cs st.payload.grounding) ∨
       (st.action = RouterAction.DEEP_SEARCH ∧
        ∃ ans, env.deepResearch st.prompt = Except.ok ans ∧
          m.text = st.finalText ++ "\n\n".data ++
            deepResearchText ans.1 ans.2 ∧
          m.groundingMetadata = st.payload.grounding) ∨
       (st.action = RouterAction.THINK ∧
        ∃ cs, env.thinkStream
            (thinkContents inp.history env.instruction env.timestamp ctx
              st.prompt) = Except.ok cs ∧
          m.text = st.finalText ++ chunksText G cs ∧
          m.groundingMetadata = st.payload.grounding) ∨
       (st.action = RouterAction.IMAGE ∧
        m.groundingMetadata = st.payload.grounding ∧
        ((∃ b, env.imageGen (imagePromptOf st.imageParams st.prompt) =
            Except.ok b ∧ m.text = st.finalText) ∨
         (∃ e, env.imageGen (imagePromptOf st.imageParams st.prompt) =
            Except.error e ∧
            m.text = st.finalText ++ imgFailText (env.errMessage e)))) ∨
       (st.action = RouterAction.CANVAS ∧
        ∃ cs, env.canvasStream (canvasContents st.prompt) = Except.ok cs ∧
          m.text = st.finalText ++ chunksText G cs ∧
          m.groundingMetadata = st.payload.grounding) ∨
       (st.action = RouterAction.PROJECT ∧
        ∃ t, env.projectResp (projectContents st.prompt) = Except.ok t ∧
          m.text = st.finalText ++ projectMsgText t ∧
          m.groundingMetadata = st.payload.grounding) ∨
       (st.action = RouterAction.STUDY ∧
        ∃ cs, env.studyStream (studyContents st.prompt) = Except.ok cs ∧
          m.text = st.finalText ++ chunksText G cs ∧
          m.groundingMetadata = st.payload.grounding)) := by
  rw [show (1 : Nat) = 0 + 1 from rfl] at h
  cases hact : st.action with
  | SIMPLE => exact absurd hact hns
  | SEARCH =>
    cases hsr : env.searchStream (searchContents st.prompt) with
    | error e => simp only [loopGo, runMode, hact, hsr] at h; simp at h
    | ok cs =>
      simp only [loopGo, runMode, hact, hsr, Prod.mk.injEq,
        Except.ok.injEq] at h
      refine ⟨_, h.2.symm, rfl, rfl, rfl, rfl,
        Or.inl ⟨rfl, cs, rfl, rfl, rfl⟩⟩
  | DEEP_SEARCH =>
    cases hdr : env.deepResearch st.prompt with
    | error e => simp only [loopGo, runMode, hact, hdr] at h; simp at h
    | ok ans =>
      simp only [loopGo, runMode, hact, hdr, Prod.mk.injEq,
        Except.ok.injEq] at h
      refine ⟨_, h.2.symm, rfl, rfl, rfl, rfl,
        Or.inr (Or.inl ⟨rfl, ans, rfl, rfl, rfl⟩)⟩
  | THINK =>
    cases hit : env.incrementThinking with
    | error e => simp only [loopGo, runMode, hact, hit] at h; simp at h
    | ok u =>
      cases hts : env.thinkStream
          (thinkContents inp.history env.instruction env.timestamp ctx
            st.prompt) with
      | error e =>
        simp only [loopGo, runMode, hact, hit, hts] at h; simp at h
      | ok cs =>
        simp only [loopGo, runMode, hact, hit, hts, Prod.mk.injEq,
          Except.ok.injEq] at h
        refine ⟨_, h.2.symm, rfl, rfl, rfl, rfl,
          Or.inr (Or.inr (Or.inl ⟨rfl, cs, rfl, rfl, rfl⟩))⟩
  | IMAGE =>
    cases hig : env.imageGen (imagePromptOf st.imageParams st.prompt) with
    | error e =>
      simp only [loopGo, runMode, hact, hig, Prod.mk.injEq,
        Except.ok.injEq] at h
      refine ⟨_, h.2.symm, rfl, rfl, rfl, rfl,
        Or.inr (Or.inr (Or.inr (Or.inl
          ⟨rfl, rfl, Or.inr ⟨e, rfl, rfl⟩⟩)))⟩
    | ok b =>
      simp only [loopGo, runMode, hact, hig, Prod.mk.injEq,
        Except.ok.injEq] at h
      refine ⟨_, h.2.symm, rfl, rfl, rfl, rfl,
        Or.inr (Or.inr (Or.inr (Or.inl
          ⟨rfl, rfl, Or.inl ⟨b, rfl, rfl⟩⟩)))⟩
  | CANVAS =>
    cases hcs : env.canvasStream (canvasContents st.prompt) with
    | error e => simp only [loopGo, runMode, hact, hcs] at h; simp at h
    | ok cs =>
      simp only [loopGo, runMode, hact, hcs, Prod.mk.injEq,
        Except.ok.injEq] at h
      refine ⟨_, h.2.symm, rfl, rfl, rfl, rfl,
        Or.inr (Or.inr (Or.inr (Or.inr (Or.inl
          ⟨rfl, cs, rfl, rfl, rfl⟩))))⟩
  | PROJECT =>
    cases hpr : env.projectResp (projectContents st.prompt) with
    | error e => simp only [loopGo, runMode, hact, hpr] at h; simp at h
    | ok t =>
      simp only [loopGo, runMode, hact, hpr, Prod.mk.injEq,
        Except.ok.injEq] at h
      refine ⟨_, h.2.symm, rfl, rfl, rfl, rfl,
        Or.inr (Or.inr (Or.inr (Or.inr (Or.inr (Or.inl
          ⟨rfl, t, rfl, rfl, rfl⟩)))))⟩
  | STUDY =>
    cases hst : env.studyStream (studyContents st.prompt) with
    | error e => simp only [loopGo, runMode, hact, hst] at h; simp at h
    | ok cs =>
      simp only [loopGo, runMode, hact, hst, Prod.mk.injEq,
        Except.ok.injEq] at h
      refine ⟨_, h.2.symm, rfl, rfl, rfl, rfl,
        Or.inr (Or.inr (Or.inr (Or.inr (Or.inr (Or.inr
          ⟨rfl, cs, rfl, rfl, rfl⟩)))))⟩

/-! Claim C5. -/

/-- C5: every non-exceptional run returns exactly one message with the
    project id of the input project, the chat id of the input chat, sender
    ai, text equal to the accumulated final response text, and every
    citation chunk captured from the streams present in its
    groundingMetadata metadata. -/
theorem claim5_single_message_with_citations (E G : Type)
    (inp : AgentInput E) (env : AgentEnv E G) (tr : List RouterAction)
    (msgs : List (Message G))
    (h : agentBody E G inp env = (tr, Except.ok msgs)) :
    ∃ m, msgs = [m] ∧ m.project_id = inp.project_id ∧
      m.chat_id = inp.chat_id ∧ m.sender = aiSender ∧
      m.text = finalTextSpec E G inp env ∧
      ∀ g ∈ citationsCapturedSpec E G inp env,
        g ∈ m.groundingMetadata.getD [] := by
  cases hctx : env.getContextResult with
  | error e =>
    rw [agentBody_ctx_err E G inp env e hctx] at h
    simp at h
  | ok ctx =>
    rw [agentBody_ctx_ok E G inp env ctx hctx] at h
    cases hbp : buildUserParts E inp.files inp.prompt with
    | error e =>
      rw [show (2 : Nat) = 1 + 1 from rfl,
        loopGo_simple_bp_err E G inp env ctx inp.prompt []
          (Payload.mk none none) none 1 e hbp] at h
      simp at h
    | ok parts =>
      cases hss : env.simpleStream (simpleContents inp.history parts) with
      | error e =>
        rw [show (2 : Nat) = 1 + 1 from rfl,
          loopGo_simple_ss_err E G inp env ctx inp.prompt []
            (Payload.mk none none) none 1 e parts hbp hss] at h
        simp at h
      | ok chunks =>
        rw [show (2 : Nat) = 1 + 1 from rfl,
          loopGo_simple_step E G inp env ctx inp.prompt []
            (Payload.mk none none) none 1 parts chunks hbp hss] at h
        rw [List.nil_append] at h
        cases htd : tagDispatch inp.prompt (chunksText G chunks)
            (chunksText G chunks) none with
        | none =>
          rw [htd] at h
          simp only [Prod.mk.injEq, Except.ok.injEq] at h
          refine ⟨_, h.2.symm, rfl, rfl, rfl, ?_, ?_⟩
          · simp only [finalTextSpec, hctx, hbp, hss, htd, baseMsg]
          · simp only [citationsCapturedSpec, hctx, hbp, hss, htd]
            intro g hg
            by_cases hlen : 50 < (chunksText G chunks).length
            · simp only [if_pos hlen, baseMsg]
              rw [foldGroundingSimple_getD G chunks none]
              simpa using hg
            · simp only [if_neg hlen, baseMsg]
              rw [foldGroundingSimple_getD G chunks none]
              simpa using hg
        | some d =>
          rw [htd] at h
          simp only [Prod.mk.injEq] at h
          have hns : (LoopState.mk d.action d.prompt d.newFinal
              (Payload.mk (foldGroundingSimple G chunks none) none)
              d.imageParams).action ≠ RouterAction.SIMPLE :=
            tagDispatch_action_ne_simple inp.prompt (chunksText G chunks)
              (chunksText G chunks) none d htd
          have hone := loopGo_one_ok E G inp env ctx
            (LoopState.mk d.action d.prompt d.newFinal
              (Payload.mk (foldGroundingSimple G chunks none) none)
              d.imageParams) hns
            (loopGo E G inp env ctx (LoopState.mk d.action d.prompt
              d.newFinal (Payload.mk (foldGroundingSimple G chunks none)
              none) d.imageParams) 1).1 msgs (by rw [← h.2])
          obtain ⟨m, hm, hpid, hcid, hsend, hmem, hbig⟩ := hone
          rcases hbig with ⟨hact, cs, hsr, htext, hgm⟩ |
            ⟨hact, ans, hdr, htext, hgm⟩ | ⟨hact, cs, hts, htext, hgm⟩ |
            ⟨hact, hgm, himg⟩ | ⟨hact, cs, hcv, htext, hgm⟩ |
            ⟨hact, t, hpr, htext, hgm⟩ | ⟨hact, cs, hstm, htext, hgm⟩
          · simp only at hact hsr htext hgm
            refine ⟨m, hm, hpid, hcid, hsend, ?_, ?_⟩
            · simp only [finalTextSpec, hctx, hbp, hss, htd, hact, hsr]
              exact htext
            · simp only [citationsCapturedSpec, hctx, hbp, hss, htd]
              rw [if_pos hact]
              simp only [hsr]
              intro g hg
              rw [hgm, foldGroundingAll_getD G cs _,
                foldGroundingSimple_getD G chunks none]
              simpa using hg
          · simp only at hact hdr htext hgm
            refine ⟨m, hm, hpid, hcid, hsend, ?_, ?_⟩
            · simp only [finalTextSpec, hctx, hbp, hss, htd, hact, hdr]
              exact htext
            · simp only [citationsCapturedSpec, hctx, hbp, hss, htd]
              intro g hg
              rw [if_neg (by simp [hact])] at hg
              rw [hgm, foldGroundingSimple_getD G chunks none]
              simpa using hg
          · simp only at hact hts htext hgm
            refine ⟨m, hm, hpid, hcid, hsend, ?_, ?_⟩
            · simp only [finalTextSpec, hctx, hbp, hss, htd, hact, hts]
              exact htext
            · simp only [citationsCapturedSpec, hctx, hbp, hss, htd]
              intro g hg
              rw [if_neg (by simp [hact])] at hg
              rw [hgm, foldGroundingSimple_getD G chunks none]
              simpa using hg
          · simp only at hact hgm
            refine ⟨m, hm, hpid, hcid, hsend, ?_, ?_⟩
            · rcases himg with ⟨b, hib, htext⟩ | ⟨e, hib, htext⟩
              · simp only at hib htext
                simp only [finalTextSpec, hctx, hbp, hss, htd, hact, hib]
                exact htext
              · simp only at hib htext
                simp only [finalTextSpec, hctx, hbp, hss, htd, hact, hib]
                exact htext
            · simp only [citationsCapturedSpec, hctx, hbp, hss, htd]
              intro g hg
              rw [if_neg (by simp [hact])] at hg
              rw [hgm, foldGroundingSimple_getD G chunks none]
              simpa using hg
          · simp only at hact hcv htext hgm
            refine ⟨m, hm, hpid, hcid, hsend, ?_, ?_⟩
            · simp only [finalTextSpec, hctx, hbp, hss, htd, hact, hcv]
              exact htext
            · simp only [citationsCapturedSpec, hctx, hbp, hss, htd]
              intro g hg
              rw [if_neg (by simp [hact])] at hg
              rw [hgm, foldGroundingSimple_getD G chunks none]
              simpa using hg
          · simp only at hact hpr htext hgm
            refine ⟨m, hm, hpid, hcid, hsend, ?_, ?_⟩
            · simp only [finalTextSpec, hctx, hbp, hss, htd, hact, hpr]
              exact htext
            · simp only [citationsCapturedSpec, hctx, hbp, hss, htd]
              intro g hg
              rw [if_neg (by simp [hact])] at hg
              rw [hgm, foldGroundingSimple_getD G chunks none]
              simpa using hg
          · simp only at hact hstm htext hgm
            refine ⟨m, hm, hpid, hcid, hsend, ?_, ?_⟩
            · simp only [finalTextSpec, hctx, hbp, hss, htd, hact, hstm]
              exact htext
            · simp only [citationsCapturedSpec, hctx, hbp, hss, htd]
              intro g hg
              rw [if_neg (by simp [hact])] at hg
              rw [hgm, foldGroundingSimple_getD G chunks none]
              simpa using hg

def c5Env : AgentEnv Nat Nat :=
  mkEnv (Except.ok "ctx".data)
    (Except.ok [StreamChunk.mk "Go <SEARCH>cats</SEARCH>".data (some [7])])
    (Except.ok [StreamChunk.mk "Cats!".data (some [9]),
      StreamChunk.mk [] (some [11])])
    okNil okNil okNil (Except.ok []) (Except.ok ([], [])) (Except.ok [])
    (fun _ => none)

theorem claim5_single_message_with_citations_witness :
    ∃ m, [Message.mk "p1".data "c1".data aiSender "Go Cats!".data none none
        (some [7, 9, 11]) none] = [m] ∧
      m.project_id = sInp.project_id ∧ m.chat_id = sInp.chat_id ∧
      m.sender = aiSender ∧
      m.text = finalTextSpec Nat Nat sInp c5Env ∧
      ∀ g ∈ citationsCapturedSpec Nat Nat sInp c5Env,
        g ∈ m.groundingMetadata.getD [] :=
  claim5_single_message_with_citations Nat Nat sInp c5Env
    [RouterAction.SIMPLE, RouterAction.SEARCH]
    [Message.mk "p1".data "c1".data aiSender "Go Cats!".data none none
      (some [7, 9, 11]) none] (by rfl)

/-! Claim C7. -/

/-- C7: in IMAGE mode (reached through an IMAGE tag), when image generation
    throws, the returned message has no image_base64 field and its text is
    the previously accumulated response text with the image-generation
    failure note appended; when image generation succeeds, the text stays
    unchanged and the message additionally carries image_base64 and
    imageStatus complete. -/
theorem claim7_image_failure_and_success (E G : Type) (inp : AgentInput E)
    (env : AgentEnv E G) (ctx : Str) (parts : List GemPart)
    (chunks : List (StreamChunk G)) (d : Dispatch)
    (hctx : env.getContextResult = Except.ok ctx)
    (hbp : buildUserParts E inp.files inp.prompt = Except.ok parts)
    (hss : env.simpleStream (simpleContents inp.history parts) =
      Except.ok chunks)
    (htd : tagDispatch inp.prompt (chunksText G chunks)
      (chunksText G chunks) none = some d)
    (hact : d.action = RouterAction.IMAGE) :
    (∀ e, env.imageGen (imagePromptOf d.imageParams d.prompt) =
        Except.error e →
      runAutonomousAgent E G inp env =
        [Message.mk inp.project_id inp.chat_id aiSender
          (d.newFinal ++ imgFailText (env.errMessage e)) none none
          (foldGroundingSimple G chunks none) none]) ∧
    (∀ b, env.imageGen (imagePromptOf d.imageParams d.prompt) =
        Except.ok b →
      runAutonomousAgent E G inp env =
        [Message.mk inp.project_id inp.chat_id aiSender d.newFinal (some b)
          (some "complete".data) (foldGroundingSimple G chunks none)
          none]) := by
  constructor
  · intro e he
    have hbody : (agentBody E G inp env).2 =
        Except.ok [Message.mk inp.project_id inp.chat_id aiSender
          (d.newFinal ++ imgFailText (env.errMessage e)) none none
          (foldGroundingSimple G chunks none) none] := by
      rw [agentBody_ctx_ok E G inp env ctx hctx,
        show (2 : Nat) = 1 + 1 from rfl,
        loopGo_simple_step E G inp env ctx inp.prompt []
          (Payload.mk none none) none 1 parts chunks hbp hss]
      rw [List.nil_append, htd]
      simp only [loopGo, runMode, hact, he, baseMsg]
    simp only [runAutonomousAgent, hbody]
  · intro b hb
    have hbody : (agentBody E G inp env).2 =
        Except.ok [Message.mk inp.project_id inp.chat_id aiSender
          d.newFinal (some b) (some "complete".data)
          (foldGroundingSimple G chunks none) none] := by
      rw [agentBody_ctx_ok E G inp env ctx hctx,
        show (2 : Nat) = 1 + 1 from rfl,
        loopGo_simple_step E G inp env ctx inp.prompt []
          (Payload.mk none none) none 1 parts chunks hbp hss]
      rw [List.nil_append, htd]
      simp only [loopGo, runMode, hact, hb]
    simp only [runAutonomousAgent, hbody]

def c7EnvErr : AgentEnv Nat Nat :=
  mkEnv (Except.ok "ctx".data)
    (Except.ok [StreamChunk.mk "Sure! <IMAGE>a cat</IMAGE>".data none])
    okNil okNil okNil okNil (Except.ok []) (Except.ok ([], []))
    (Except.error 5) (fun _ => some "boom".data)

def c7EnvOk : AgentEnv Nat Nat :=
  mkEnv (Except.ok "ctx".data)
    (Except.ok [StreamChunk.mk "Sure! <IMAGE>a cat</IMAGE>".data none])
    okNil okNil okNil okNil (Except.ok []) (Except.ok ([], []))
    (Except.ok "B64".data) (fun _ => none)

def c7Disp : Dispatch :=
  Dispatch.mk RouterAction.IMAGE "a cat".data "Sure! ".data
    (some "a cat".data)

theorem claim7_image_failure_and_success_witness :
    runAutonomousAgent Nat Nat sInp c7EnvErr =
      [Message.mk "p1".data "c1".data aiSender
        ("Sure! ".data ++ imgFailText (some "boom".data)) none none
        (foldGroundingSimple Nat
          [StreamChunk.mk "Sure! <IMAGE>a cat</IMAGE>".data none] none)
        none] ∧
    runAutonomousAgent Nat Nat sInp c7EnvOk =
      [Message.mk "p1".data "c1".data aiSender "Sure! ".data
        (some "B64".data) (some "complete".data)
        (foldGroundingSimple Nat
          [StreamChunk.mk "Sure! <IMAGE>a cat</IMAGE>".data none] none)
        none] :=
  ⟨(claim7_image_failure_and_success Nat Nat sInp c7EnvErr "ctx".data
      [GemPart.text "hello".data]
      [StreamChunk.mk "Sure! <IMAGE>a cat</IMAGE>".data none] c7Disp rfl rfl
      rfl (by decide) rfl).1 5 rfl,
   (claim7_image_failure_and_success Nat Nat sInp c7EnvOk "ctx".data
      [GemPart.text "hello".data]
      [StreamChunk.mk "Sure! <IMAGE>a cat</IMAGE>".data none] c7Disp rfl rfl
      rfl (by decide) rfl).2 "B64".data rfl⟩

/-! Claim C10. -/

/-- C10: the returned message carries the single outer_personal last_topic
    memory record with the original user prompt as value exactly when the
    run ends in the SIMPLE iteration with no tag detected and the text
    generated in that iteration is strictly longer than 50 characters; in
    every other non-exceptional outcome the field is absent. -/
theorem claim10_memory_heuristic (E G : Type) (inp : AgentInput E)
    (env : AgentEnv E G) (ctx : Str) (parts : List GemPart)
    (chunks : List (StreamChunk G)) (tr : List RouterAction)
    (msgs : List (Message G))
    (hctx : env.getContextResult = Except.ok ctx)
    (hbp : buildUserParts E inp.files inp.prompt = Except.ok parts)
    (hss : env.simpleStream (simpleContents inp.history parts) =
      Except.ok chunks)
    (h : agentBody E G inp env = (tr, Except.ok msgs)) :
    ∀ m ∈ msgs,
      m.memoryToCreate =
        if tagDispatch inp.prompt (chunksText G chunks)
              (chunksText G chunks) none = none ∧
            50 < (chunksText G chunks).length then
          some [lastTopicEntry inp.prompt]
        else none := by
  rw [agentBody_ctx_ok E G inp env ctx hctx,
    show (2 : Nat) = 1 + 1 from rfl,
    loopGo_simple_step E G inp env ctx inp.prompt []
      (Payload.mk none none) none 1 parts chunks hbp hss] at h
  rw [List.nil_append] at h
  cases htd : tagDispatch inp.prompt (chunksText G chunks)
      (chunksText G chunks) none with
  | none =>
    rw [htd] at h
    simp only [Prod.mk.injEq, Except.ok.injEq] at h
    intro m hm
    rw [← h.2] at hm
    rw [List.mem_singleton] at hm
    subst hm
    by_cases hlen : 50 < (chunksText G chunks).length
    · simp [baseMsg, hlen]
    · simp [baseMsg, hlen]
  | some d =>
    rw [htd] at h
    simp only [Prod.mk.injEq] at h
    have hns : (LoopState.mk d.action d.prompt d.newFinal
        (Payload.mk (foldGroundingSimple G chunks none) none)
        d.imageParams).action ≠ RouterAction.SIMPLE :=
      tagDispatch_action_ne_simple inp.prompt (chunksText G chunks)
        (chunksText G chunks) none d htd
    have hone := loopGo_one_ok E G inp env ctx
      (LoopState.mk d.action d.prompt d.newFinal
        (Payload.mk (foldGroundingSimple G chunks none) none)
        d.imageParams) hns
      (loopGo E G inp env ctx (LoopState.mk d.action d.prompt d.newFinal
        (Payload.mk (foldGroundingSimple G chunks none) none)
        d.imageParams) 1).1 msgs (by rw [← h.2])
    obtain ⟨m, hm, -, -, -, hmem, -⟩ := hone
    intro m2 hm2
    rw [hm, List.mem_singleton] at hm2
    subst hm2
    rw [if_neg (fun hc => Option.noConfusion hc.1)]
    simpa using hmem

def c10Chunks : List (StreamChunk Nat) :=
  [StreamChunk.mk
    "This answer is definitely longer than fifty characters in total.".data
    none]

def c10Env : AgentEnv Nat Nat :=
  mkEnv (Except.ok "ctx".data) (Except.ok c10Chunks)
    okNil okNil okNil okNil (Except.ok []) (Except.ok ([], []))
    (Except.ok []) (fun _ => none)

theorem claim10_memory_heuristic_witness :
    (Message.mk "p1".data "c1".data aiSender
        "This answer is definitely longer than fifty characters in total.".data
        none none none (some [lastTopicEntry "hello".data]) :
          Message Nat).memoryToCreate =
      if tagDispatch sInp.prompt (chunksText Nat c10Chunks)
            (chunksText Nat c10Chunks) none = none ∧
          50 < (chunksText Nat c10Chunks).length then
        some [lastTopicEntry sInp.prompt]
      else none :=
  claim10_memory_heuristic Nat Nat sInp c10Env "ctx".data
    [GemPart.text "hello".data] c10Chunks [RouterAction.SIMPLE]
    [Message.mk "p1".data "c1".data aiSender
      "This answer is definitely longer than fifty characters in total.".data
      none none none (some [lastTopicEntry "hello".data])]
    rfl rfl rfl (by rfl)
    (Message.mk "p1".data "c1".data aiSender
      "This answer is definitely longer than fifty characters in total.".data
      none none none (some [lastTopicEntry "hello".data]))
    (List.mem_singleton.mpr rfl)
